import Mathlib

/-!
# Verification of the Weather_tracker_api pipeline

Shallow embedding of the two Python programs `city_weather_info.py` (the
"snapshot" variant) and `city_weather_forecast.py` (the "forecast" variant).

Modelling conventions:
* JSON values are the inductive `Json` below; numbers are modelled as integers
  (the spec-relevant payloads are city names, codes and coordinates; the
  float grammar is outside the model and the parser rejects it).
* The external HTTP world is an oracle function from the request key to a
  `GeoOutcome` / `WxOutcome`; per the wire contract in the spec the geocoding
  body is a JSON array, so its `ok` payload is a `List Json`.
* Side effects (HTTP requests, `time.sleep`, `print`, `json` file writes,
  matplotlib calls) are reified as a `Step` trace returned alongside the value.
* Python `str` helpers (`strip`, `title`, `upper`, `split`) are modelled over
  `List Char` with the ASCII case table, which covers the inputs at issue.
-/

namespace WeatherTracker

/-- A JSON value.  Numbers are integers in this model (`json.dumps` of an
`int`); the programs' payload fields that matter to the claims are strings,
nulls and nested arrays/objects. -/
inductive Json where
  | null : Json
  | bool : Bool → Json
  | num : Int → Json
  | str : String → Json
  | arr : List Json → Json
  | obj : List (String × Json) → Json
deriving Repr

mutual

/-- Decidable equality for `Json`, written out by hand: the nested inductive
rules out the derived instance on this toolchain. -/
def jsonDecEq : (a b : Json) → Decidable (a = b)
  | .null, .null => .isTrue rfl
  | .bool x, .bool y =>
      match decEq x y with
      | .isTrue h => .isTrue (by rw [h])
      | .isFalse h => .isFalse (fun he => h (by injection he))
  | .num x, .num y =>
      match decEq x y with
      | .isTrue h => .isTrue (by rw [h])
      | .isFalse h => .isFalse (fun he => h (by injection he))
  | .str x, .str y =>
      match decEq x y with
      | .isTrue h => .isTrue (by rw [h])
      | .isFalse h => .isFalse (fun he => h (by injection he))
  | .arr xs, .arr ys =>
      match jsonDecEqArr xs ys with
      | .isTrue h => .isTrue (by rw [h])
      | .isFalse h => .isFalse (fun he => h (by injection he))
  | .obj xs, .obj ys =>
      match jsonDecEqObj xs ys with
      | .isTrue h => .isTrue (by rw [h])
      | .isFalse h => .isFalse (fun he => h (by injection he))
  | .null, .bool _ | .null, .num _ | .null, .str _ | .null, .arr _
  | .null, .obj _ | .bool _, .null | .bool _, .num _ | .bool _, .str _
  | .bool _, .arr _ | .bool _, .obj _ | .num _, .null | .num _, .bool _
  | .num _, .str _ | .num _, .arr _ | .num _, .obj _ | .str _, .null
  | .str _, .bool _ | .str _, .num _ | .str _, .arr _ | .str _, .obj _
  | .arr _, .null | .arr _, .bool _ | .arr _, .num _ | .arr _, .str _
  | .arr _, .obj _ | .obj _, .null | .obj _, .bool _ | .obj _, .num _
  | .obj _, .str _ | .obj _, .arr _ => .isFalse (fun he => Json.noConfusion he)

/-- Elementwise decidable equality on JSON arrays. -/
def jsonDecEqArr : (xs ys : List Json) → Decidable (xs = ys)
  | [], [] => .isTrue rfl
  | [], _ :: _ => .isFalse (fun he => List.noConfusion he)
  | _ :: _, [] => .isFalse (fun he => List.noConfusion he)
  | x :: xs, y :: ys =>
      match jsonDecEq x y, jsonDecEqArr xs ys with
      | .isTrue h1, .isTrue h2 => .isTrue (by rw [h1, h2])
      | .isFalse h1, _ => .isFalse (fun he => h1 (by injection he))
      | _, .isFalse h2 => .isFalse (fun he => h2 (by injection he))

/-- Memberwise decidable equality on JSON objects. -/
def jsonDecEqObj : (xs ys : List (String × Json)) → Decidable (xs = ys)
  | [], [] => .isTrue rfl
  | [], _ :: _ => .isFalse (fun he => List.noConfusion he)
  | _ :: _, [] => .isFalse (fun he => List.noConfusion he)
  | (k, v) :: xs, (l, w) :: ys =>
      match decEq k l, jsonDecEq v w, jsonDecEqObj xs ys with
      | .isTrue h1, .isTrue h2, .isTrue h3 => .isTrue (by rw [h1, h2, h3])
      | .isFalse h1, _, _ =>
          .isFalse (fun he => h1 (congrArg (fun p => p.headD ("", Json.null) |>.1) he))
      | _, .isFalse h2, _ =>
          .isFalse (fun he => h2 (congrArg (fun p => p.headD ("", Json.null) |>.2) he))
      | _, _, .isFalse h3 => .isFalse (fun he => h3 (by injection he))

end

instance : DecidableEq Json := jsonDecEq

/-- Python truthiness of a parsed JSON value (`if data:` in the sources):
`None`, `False`, `0`, `""`, `[]`, `{}` are falsy. -/
def jsonTruthy : Json → Bool
  | .null => false
  | .bool b => b
  | .num n => n != 0
  | .str s => s != ""
  | .arr xs => !xs.isEmpty
  | .obj kvs => !kvs.isEmpty

/-- `d.get(k)` on a Python dict parsed from JSON: `none` when the key is
absent (Python `None`).  Non-dict receivers do not occur on the claim
paths; they are mapped to `none`. -/
def jsonGet (j : Json) (k : String) : Option Json :=
  match j with
  | .obj kvs => (kvs.find? (fun kv => kv.1 == k)).map (fun kv => kv.2)
  | _ => none

/-- Python `k in d` (used as `'list' in forecast_data`): key membership for a
dict, element membership for a list; other receivers are outside the claim
paths and map to `false`. -/
def jsonHasKey (k : String) (j : Json) : Bool :=
  match j with
  | .obj kvs => kvs.any (fun kv => kv.1 == k)
  | .arr xs => xs.contains (Json.str k)
  | _ => false

/-! ## Python string helpers (ASCII model) -/

/-- The characters Python `str.strip()` removes by default (ASCII part). -/
def pyIsSpace (c : Char) : Bool :=
  c.toNat == 32 || (9 ≤ c.toNat && c.toNat ≤ 13)

/-- Python `s.strip()`. -/
def pyStrip (s : String) : String :=
  ⟨((s.data.dropWhile pyIsSpace).reverse.dropWhile pyIsSpace).reverse⟩

/-- ASCII alphabetic test (Python `str.title()` word boundaries, ASCII model). -/
def pyIsAlpha (c : Char) : Bool :=
  (97 ≤ c.toNat && c.toNat ≤ 122) || (65 ≤ c.toNat && c.toNat ≤ 90)

/-- Character fold for Python `str.title()`: a cased character is upper-cased
when the previous character was not cased, lower-cased otherwise. -/
def pyTitleAux : Bool → List Char → List Char
  | _, [] => []
  | prevAlpha, c :: cs =>
    (if pyIsAlpha c then (if prevAlpha then c.toLower else c.toUpper) else c)
      :: pyTitleAux (pyIsAlpha c) cs

/-- Python `s.title()` (ASCII model). -/
def pyTitle (s : String) : String := ⟨pyTitleAux false s.data⟩

/-- Python `s.upper()` (ASCII model). -/
def pyUpper (s : String) : String := ⟨s.data.map Char.toUpper⟩

/-- Python `s.split(sep)` for a one-character separator: splits at every
occurrence and keeps empty parts; `"".split(sep) = [""]`. -/
def pySplitAux (sep : Char) : List Char → List Char → List String
  | cur, [] => [⟨cur.reverse⟩]
  | cur, c :: cs =>
    if c == sep then ⟨cur.reverse⟩ :: pySplitAux sep [] cs
    else pySplitAux sep (c :: cur) cs

/-- Python `s.split(sep)`. -/
def pySplit (s : String) (sep : Char) : List String := pySplitAux sep [] s.data

/-- Python `str(x)` for a value read out of parsed JSON, as interpolated into
the programs' f-string log lines.  Only the `str`/`null` cases are exercised
by the claims (city names); containers fall back to a stub rendering. -/
def pyShow : Option Json → String
  | none => "None"
  | some .null => "None"
  | some (.bool true) => "True"
  | some (.bool false) => "False"
  | some (.num n) => toString n
  | some (.str s) => s
  | some (.arr _) => "<list>"
  | some (.obj _) => "<dict>"

/-! ## Constants of the two programs -/

def REQUEST_TIMEOUT : Nat := 10
def RATE_LIMIT_DELAY : Nat := 1
def COORDINATES_FILE : String := "city_coordinates.json"
def WEATHER_DATA_FILE : String := "city_weather_data.json"
def FORECAST_FILE : String := "city_weather_forecast.json"
def geoUrl : String := "https://api.openweathermap.org/geo/1.0/direct"
def weatherUrl : String := "https://api.openweathermap.org/data/2.5/weather"
def forecastUrl : String := "https://api.openweathermap.org/data/2.5/forecast"

/-! ## External world and effect traces -/

/-- Outcome of one geocoding HTTP exchange, as seen after
`raise_for_status()` and `.json()`.  Per the wire contract the geocoding
body is a JSON array, so the success payload is the candidate list.
`transportError` covers connection errors, timeouts and non-2xx statuses
(`requests.exceptions.RequestException`); `decodeError` a body that is not
JSON (`json.JSONDecodeError`).  Each error carries the exception's text. -/
inductive GeoOutcome where
  | ok : List Json → GeoOutcome
  | transportError : String → GeoOutcome
  | decodeError : String → GeoOutcome

/-- Outcome of one weather/forecast HTTP exchange (body is one JSON value). -/
inductive WxOutcome where
  | ok : Json → WxOutcome
  | transportError : String → WxOutcome
  | decodeError : String → WxOutcome

/-- One `requests.get` call site, with the arguments the source passes:
`q` for the geocoding query parameter, `lat`/`lon` for the weather ones,
and the `timeout=` keyword if the call site supplies one. -/
structure HttpCall where
  url : String
  q : Option String
  lat : Option Json
  lon : Option Json
  timeout : Option Nat
deriving Repr, DecidableEq

/-- One observable effect of the programs, in execution order. -/
inductive Step where
  | printLine : String → Step
  | request : HttpCall → Step
  | sleep : Nat → Step
  | save : String → Json → Step
  | plotSeries : String → Step
  | plotBars : List Json → Step
  | showChart : Step
deriving Repr, DecidableEq

/-! ## Locations -/

/-- The dict `get_coordinates` builds from the chosen candidate: each field is
`candidate.get(key)`, hence `none` (Python `None`) when absent. -/
structure Location where
  name : Option Json
  latitude : Option Json
  longitude : Option Json
  country : Option Json
  state : Option Json
deriving Repr, DecidableEq

/-- The JSON object `save_json` writes for one location dict (`None` values
serialize as `null`). -/
def locationToJson (l : Location) : Json :=
  .obj [("name", l.name.getD .null), ("latitude", l.latitude.getD .null),
        ("longitude", l.longitude.getD .null), ("country", l.country.getD .null),
        ("state", l.state.getD .null)]

/-- `{'name': city_data.get('name'), ...}` — the candidate-to-location map. -/
def locOfCandidate (d : Json) : Location :=
  ⟨jsonGet d "name", jsonGet d "lat", jsonGet d "lon",
   jsonGet d "country", jsonGet d "state"⟩

/-! ## Query normalization (lines 47-49, identical in both files)

`parts = [part.strip().title() for part in location.split(',')]`,
`city = parts[0]`,
`country_code = parts[1].upper() if len(parts) > 1 else None`. -/

def queryParts (location : String) : List String :=
  (pySplit location ',').map (fun p => pyTitle (pyStrip p))

def queryCity (location : String) : String := (queryParts location).headD ""

def queryCountry (location : String) : Option String :=
  match queryParts location with
  | _ :: c :: _ => some (pyUpper c)
  | _ => none

/-- `'q': city + (f",{country_code}" if country_code else "")` — the empty
country code is falsy in Python, so it appends no suffix. -/
def geoQuery (location : String) : String :=
  let city := queryCity location
  match queryCountry location with
  | some c => if c == "" then city else city ++ "," ++ c
  | none => city

/-- `country_code or ''` as interpolated in the snapshot variant's messages. -/
def ccOrEmpty (cc : Option String) : String := cc.getD ""

/-- `country_code if country_code else None` in the forecast variant's
status line (an empty code is falsy, so it prints `None`). -/
def ccOrNone (cc : Option String) : String :=
  match cc with
  | some c => if c == "" then "None" else c
  | none => "None"

/-! ## GeocodingResolver — `get_coordinates` (snapshot variant, lines 36-91)

Returns the location (or `none`) together with the effect trace of the call.
The `finally: time.sleep(RATE_LIMIT_DELAY)` of the source appends the sleep
step on every branch. -/

def get_coordinates_info (geo : String → GeoOutcome) (location : String) :
    Option Location × List Step :=
  let city := queryCity location
  let cc := queryCountry location
  let q := geoQuery location
  let pre : List Step :=
    [.printLine ("Fetching coordinates for " ++ city ++ ", " ++ ccOrEmpty cc ++ "..."),
     .request ⟨geoUrl, some q, none, none, some REQUEST_TIMEOUT⟩]
  match geo q with
  | .ok (d :: ds) =>
      -- `if data:` then `data[0]` — first candidate.
      let _ := ds
      (some (locOfCandidate d), pre ++ [.sleep RATE_LIMIT_DELAY])
  | .ok [] =>
      (none, pre ++ [.printLine ("No results found for " ++ city ++ ", " ++ ccOrEmpty cc),
                     .sleep RATE_LIMIT_DELAY])
  | .transportError e =>
      (none, pre ++ [.printLine ("Error fetching coordinates for " ++ city ++ ", "
                       ++ ccOrEmpty cc ++ ": " ++ e),
                     .sleep RATE_LIMIT_DELAY])
  | .decodeError e =>
      (none, pre ++ [.printLine ("Error decoding JSON response for " ++ city ++ ", "
                       ++ ccOrEmpty cc ++ ": " ++ e),
                     .sleep RATE_LIMIT_DELAY])

/-! ## GeocodingResolver — `get_coordinates` (forecast variant, lines 31-93)

Differences from the snapshot variant, all from the source: the
`requests.get` call passes no `timeout=`; a status line is printed on
success; and the success path runs
`for city_data in geo_response_dict: extracted_info = {...}`, so the dict
that survives the loop is built from the **last** candidate. -/

def get_coordinates_forecast (geo : String → GeoOutcome) (location : String) :
    Option Location × List Step :=
  let city := queryCity location
  let cc := queryCountry location
  let q := geoQuery location
  let pre : List Step :=
    [.printLine ("Fetching coordinates for " ++ city ++ "," ++ ccOrEmpty cc ++ "..."),
     .request ⟨geoUrl, some q, none, none, none⟩]
  match geo q with
  | .ok (d :: ds) =>
      (some (locOfCandidate (ds.getLastD d)),
       pre ++ [.printLine ("Name: " ++ city ++ "\tCountry: " ++ ccOrNone cc
                 ++ "\tStatus Code: <2xx>"),
               .sleep 1])
  | .ok [] =>
      (none, pre ++ [.printLine ("Name: " ++ city ++ "\tCountry: " ++ ccOrNone cc
                       ++ "\tStatus Code: <2xx>"),
                     .printLine ("No coordinates found for " ++ city ++ ", " ++ ccOrEmpty cc),
                     .sleep 1])
  | .transportError e =>
      (none, pre ++ [.printLine ("Error fetching coordinates for " ++ city ++ ", "
                       ++ ccOrEmpty cc ++ ": " ++ e),
                     .sleep 1])
  | .decodeError e =>
      (none, pre ++ [.printLine ("Error decoding JSON response for coordinates of "
                       ++ city ++ ", " ++ ccOrEmpty cc ++ ": " ++ e),
                     .sleep 1])

/-! ## WeatherRetriever — `get_weather_data` (snapshot variant, lines 94-130)

Keyed by `city_info['latitude']`, `city_info['longitude']`; carries
`timeout=REQUEST_TIMEOUT`; sleeps in `finally`. -/

def get_weather_data (wx : Option Json × Option Json → WxOutcome)
    (city_info : Location) : Option Json × List Step :=
  let nm := pyShow city_info.name
  let pre : List Step :=
    [.printLine ("Fetching weather data for " ++ nm ++ "..."),
     .request ⟨weatherUrl, none, city_info.latitude, city_info.longitude,
               some REQUEST_TIMEOUT⟩]
  match wx (city_info.latitude, city_info.longitude) with
  | .ok j => (some j, pre ++ [.sleep RATE_LIMIT_DELAY])
  | .transportError e =>
      (none, pre ++ [.printLine ("Error fetching weather data for " ++ nm ++ ": " ++ e),
                     .sleep RATE_LIMIT_DELAY])
  | .decodeError e =>
      (none, pre ++ [.printLine ("Error decoding JSON response for " ++ nm ++ ": " ++ e),
                     .sleep RATE_LIMIT_DELAY])

/-! ## WeatherRetriever — `get_weather_forecast` (forecast variant, lines 96-134)

No `timeout=` keyword at the call site and no `finally` sleep. -/

def get_weather_forecast (wx : Option Json × Option Json → WxOutcome)
    (city_info : Location) : Option Json × List Step :=
  let nm := pyShow city_info.name
  let pre : List Step :=
    [.printLine ("Fetching weather forecast for " ++ nm),
     .request ⟨forecastUrl, none, city_info.latitude, city_info.longitude, none⟩]
  match wx (city_info.latitude, city_info.longitude) with
  | .ok j =>
      (some j, pre ++ [.printLine ("City name: " ++ nm ++ "\tStatus Code: <2xx>")])
  | .transportError e =>
      (none, pre ++ [.printLine ("Error fetching weather for " ++ nm ++ ": " ++ e)])
  | .decodeError e =>
      (none, pre ++ [.printLine ("Error decoding JSON response for weather in "
                       ++ nm ++ ": " ++ e)])

/-! ## ChartRenderer -/

/-- `plot_forecast` (forecast variant, lines 137-156).  The guard is
`forecast_data and 'list' in forecast_data and forecast_data['list']`; the
then-branch's timestamp/temperature extraction feeds `ax.plot`, reified as a
`plotSeries` step. -/
def plot_forecast (forecast_data : Json) (city_name : String) : List Step :=
  if jsonTruthy forecast_data && jsonHasKey "list" forecast_data
      && (match jsonGet forecast_data "list" with
          | some l => jsonTruthy l
          | none => false) then
    [.printLine ("Plotting forecast for " ++ city_name), .plotSeries city_name]
  else
    [.printLine ("No forecast data available for " ++ city_name ++ ".")]

/-- `plot_temperatures` (snapshot variant, lines 148-182).  An empty record
list prints a notice and returns; otherwise the bar chart over the records is
drawn and shown. -/
def plot_temperatures (city_weather_data : List Json) : List Step :=
  if city_weather_data.isEmpty then
    [.printLine "No weather data to plot."]
  else
    [.plotBars city_weather_data, .showChart]

/-- The trace of one `save_json(data, filename)` call (lines 133-145 /
160-173): the write, then the confirmation line.  The `IOError` branch is
a log-and-continue alternative not reachable in the file-system model. -/
def save_json_steps (data : Json) (filename : String) : List Step :=
  [.save filename data, .printLine ("\nData saved to " ++ filename)]

/-! ## BatchOrchestrator — the two `main` loops, one non-quit iteration -/

/-- Snapshot variant, resolution loop (lines 200-204):
`for location in user_locations: city_info = get_coordinates(location);
if city_info: extracted_data.append(city_info)` — a returned dict is always
truthy, `None` is falsy. -/
def resolve_loop_info (geo : String → GeoOutcome) :
    List String → List Location × List Step
  | [] => ([], [])
  | loc :: rest =>
      let r := get_coordinates_info geo loc
      let rs := resolve_loop_info geo rest
      ((match r.1 with | some x => x :: rs.1 | none => rs.1), r.2 ++ rs.2)

/-- Snapshot variant, retrieval loop (lines 208-212): the append guard is
`if weather_data:` — Python truthiness of the parsed body. -/
def retrieve_loop_info (wx : Option Json × Option Json → WxOutcome) :
    List Location → List Json × List Step
  | [] => ([], [])
  | ci :: rest =>
      let r := get_weather_data wx ci
      let rs := retrieve_loop_info wx rest
      ((match r.1 with
        | some j => if jsonTruthy j then j :: rs.1 else rs.1
        | none => rs.1), r.2 ++ rs.2)

/-- Forecast variant, resolution loop (lines 200-203): same shape as the
snapshot variant but through the forecast resolver. -/
def resolve_loop_forecast (geo : String → GeoOutcome) :
    List String → List Location × List Step
  | [] => ([], [])
  | loc :: rest =>
      let r := get_coordinates_forecast geo loc
      let rs := resolve_loop_forecast geo rest
      ((match r.1 with | some x => x :: rs.1 | none => rs.1), r.2 ++ rs.2)

/-- Forecast variant, retrieval loop (lines 209-213): under `if forecast_data:`
the body is collected **and** plotted immediately (`plot_forecast` inside
the loop). -/
def retrieve_loop_forecast (wx : Option Json × Option Json → WxOutcome) :
    List Location → List Json × List Step
  | [] => ([], [])
  | ci :: rest =>
      let r := get_weather_forecast wx ci
      let rs := retrieve_loop_forecast wx rest
      match r.1 with
      | some f =>
          if jsonTruthy f then
            (f :: rs.1, r.2 ++ plot_forecast f (pyShow ci.name) ++ rs.2)
          else (rs.1, r.2 ++ rs.2)
      | none => (rs.1, r.2 ++ rs.2)

/-- What one pass of a REPL loop does with `user_input`. -/
inductive ReplAction where
  | quit : ReplAction
  | invalid : ReplAction
  | batch : List Step → ReplAction
deriving Repr, DecidableEq

/-- `user_locations = [location.strip() for location in user_input.split(';')]`
(identical in both mains). -/
def userLocations (user_input : String) : List String :=
  (pySplit user_input ';').map pyStrip

/-- One iteration of the snapshot variant's `main` loop (lines 185-215):
`quit` breaks, the empty string is re-prompted (`if not user_input:`), and
anything else runs a full batch: resolve all, save locations, retrieve all,
save weather records, plot. -/
def main_iteration_info (geo : String → GeoOutcome)
    (wx : Option Json × Option Json → WxOutcome) (user_input : String) : ReplAction :=
  if user_input == "quit" then .quit
  else if user_input == "" then .invalid
  else
    let rres := resolve_loop_info geo (userLocations user_input)
    let wres := retrieve_loop_info wx rres.1
    .batch (rres.2
      ++ save_json_steps (Json.arr (rres.1.map locationToJson)) COORDINATES_FILE
      ++ wres.2
      ++ save_json_steps (Json.arr wres.1) WEATHER_DATA_FILE
      ++ plot_temperatures wres.1)

/-- One (first) iteration of the forecast variant's `main` loop (lines
177-224), which `break`s after a single batch: resolve all, save locations,
retrieve-and-plot all, show the chart, then save the forecasts. -/
def main_iteration_forecast (geo : String → GeoOutcome)
    (wx : Option Json × Option Json → WxOutcome) (user_input : String) : ReplAction :=
  if user_input == "quit" then .quit
  else if user_input == "" then .invalid
  else
    let rres := resolve_loop_forecast geo (userLocations user_input)
    let wres := retrieve_loop_forecast wx rres.1
    .batch (rres.2
      ++ save_json_steps (Json.arr (rres.1.map locationToJson)) COORDINATES_FILE
      ++ wres.2
      ++ [.showChart]
      ++ save_json_steps (Json.arr wres.1) FORECAST_FILE)

/-! ## JsonStore — `json.dumps(data, indent=4)` and `json.loads`

`save_json` delegates serialization to the standard library; the model below
reproduces `json.dumps(data, indent=4)` (default `ensure_ascii=True`: every
code point ≥ 0x7f is `\uXXXX`-escaped, astral code points as surrogate
pairs) and a `json.loads`-style reader.  Numbers are integers, matching the
`Json` model; the reader rejects the float grammar (`.`/`e` after the
integer part), which no dumped value of this model contains. -/

/-- The decimal digit character for `k < 10`. -/
def decDigit (k : Nat) : Char := Char.ofNat (48 + k)

/-- Decimal digits of `n`, most significant first, in front of `acc`. -/
def natChars (n : Nat) (acc : List Char) : List Char :=
  if n < 10 then decDigit n :: acc
  else natChars (n / 10) (decDigit (n % 10) :: acc)
termination_by n
decreasing_by exact Nat.div_lt_self (by omega) (by omega)

/-- `repr` of a Python `int`: optional minus sign, then decimal digits. -/
def intChars (i : Int) : List Char :=
  (if i < 0 then ['-'] else []) ++ natChars i.natAbs []

/-- Lowercase hex digit for `k < 16` (Python emits lowercase in `\uXXXX`). -/
def hexDigit (k : Nat) : Char :=
  if k < 10 then Char.ofNat (48 + k) else Char.ofNat (87 + k)

/-- A `\uXXXX` escape for a 16-bit scalar `n`. -/
def uEscape (n : Nat) : List Char :=
  ['\\', 'u', hexDigit (n / 4096 % 16), hexDigit (n / 256 % 16),
   hexDigit (n / 16 % 16), hexDigit (n % 16)]

/-- How `json.dumps` (with `ensure_ascii=True`) writes one character of a
string: the two-character escapes for `"`, `\`, and the named control
characters; `\uXXXX` for the other control characters and everything
≥ 0x7f; astral code points as a surrogate pair. -/
def escapeChar (c : Char) : List Char :=
  if c == '"' then ['\\', '"']
  else if c == '\\' then ['\\', '\\']
  else if c == '\n' then ['\\', 'n']
  else if c == '\t' then ['\\', 't']
  else if c == '\r' then ['\\', 'r']
  else if c.toNat == 8 then ['\\', 'b']
  else if c.toNat == 12 then ['\\', 'f']
  else if c.toNat < 0x20 then uEscape c.toNat
  else if c.toNat < 0x7f then [c]
  else if c.toNat < 0x10000 then uEscape c.toNat
  else uEscape (0xd800 + (c.toNat - 0x10000) / 0x400)
       ++ uEscape (0xdc00 + (c.toNat - 0x10000) % 0x400)

/-- A dumped JSON string: quote, escaped characters, quote. -/
def dumpString (s : String) : List Char :=
  '"' :: ((s.data.map escapeChar).flatten ++ ['"'])

/-- `indent=4` padding at nesting level `ind`. -/
def pad (ind : Nat) : List Char := List.replicate ind ' '

mutual

/-- `json.dumps(v, indent=4)` at indentation `ind`, as a character list.
Empty containers collapse to `[]`/`{}`; non-empty ones put each item on
its own line, indented four more spaces, and the key separator is `": "`. -/
def dumpVal (ind : Nat) : Json → List Char
  | .null => "null".data
  | .bool true => "true".data
  | .bool false => "false".data
  | .num i => intChars i
  | .str s => dumpString s
  | .arr [] => ['[', ']']
  | .arr (x :: xs) =>
      '[' :: '\n' :: (dumpItems (ind + 4) x xs ++ '\n' :: (pad ind ++ [']']))
  | .obj [] => ['{', '}']
  | .obj ((k, v) :: kvs) =>
      '{' :: '\n' :: (dumpMembers (ind + 4) k v kvs ++ '\n' :: (pad ind ++ ['}']))
termination_by j => sizeOf j

/-- The comma-and-newline-separated items of a non-empty dumped array. -/
def dumpItems (ind : Nat) (x : Json) : List Json → List Char
  | [] => pad ind ++ dumpVal ind x
  | y :: ys => pad ind ++ dumpVal ind x ++ ',' :: '\n' :: dumpItems ind y ys
termination_by xs => sizeOf x + sizeOf xs

/-- The members of a non-empty dumped object (`"key": value`). -/
def dumpMembers (ind : Nat) (k : String) (v : Json) : List (String × Json) → List Char
  | [] => pad ind ++ dumpString k ++ ':' :: ' ' :: dumpVal ind v
  | (l, w) :: ls => pad ind ++ dumpString k ++ ':' :: ' ' :: dumpVal ind v
                     ++ ',' :: '\n' :: dumpMembers ind l w ls
termination_by ls => sizeOf v + sizeOf ls

end

/-- `json.dumps(data, indent=4)` as called by `save_json`. -/
def dumps (data : Json) : String := ⟨dumpVal 0 data⟩

/-- The file system after `save_json(data, filename)`:
`Path(filename).write_text(json.dumps(data, indent=4))` overwrites whatever
was at that path. -/
def save_json (fs : String → Option String) (data : Json) (filename : String) :
    String → Option String :=
  fun p => if p == filename then some (dumps data) else fs p

/-! ### A `json.loads`-style reader -/

/-- JSON inter-token whitespace (space, tab, line feed, carriage return). -/
def jsonWs (c : Char) : Bool :=
  c.toNat == 32 || c.toNat == 9 || c.toNat == 10 || c.toNat == 13

/-- Drop leading JSON whitespace. -/
def skipJsonWs : List Char → List Char
  | [] => []
  | c :: cs => if jsonWs c then skipJsonWs cs else c :: cs

/-- ASCII decimal digit test. -/
def isDigitCh (c : Char) : Bool := 48 ≤ c.toNat && c.toNat ≤ 57

/-- Split off the longest leading run of decimal digits. -/
def takeDigitRun : List Char → List Char × List Char
  | [] => ([], [])
  | c :: cs =>
      if isDigitCh c then
        let r := takeDigitRun cs
        (c :: r.1, r.2)
      else ([], c :: cs)

/-- The number a digit run denotes. -/
def digitRunVal (ds : List Char) : Nat :=
  ds.foldl (fun a c => a * 10 + (c.toNat - 48)) 0

/-- Read a digit run and build the integer (negated when `neg`).  A
following `.`, `e` or `E` would start the float grammar, which is outside
this integer model, so the reader rejects it. -/
def parseDigitsTok (neg : Bool) (cs : List Char) : Option (Int × List Char) :=
  match takeDigitRun cs with
  | ([], _) => none
  | (ds, rest) =>
      let v : Int := if neg then -(digitRunVal ds : Int) else (digitRunVal ds : Int)
      match rest with
      | c :: _ => if c == '.' || c == 'e' || c == 'E' then none else some (v, rest)
      | [] => some (v, [])

/-- Read an integer literal: optional minus sign and a digit run. -/
def parseIntTok : List Char → Option (Int × List Char)
  | '-' :: r => parseDigitsTok true r
  | cs => parseDigitsTok false cs

/-- The value of one hex digit (either case). -/
def hexVal (c : Char) : Option Nat :=
  if 48 ≤ c.toNat ∧ c.toNat ≤ 57 then some (c.toNat - 48)
  else if 97 ≤ c.toNat ∧ c.toNat ≤ 102 then some (c.toNat - 87)
  else if 65 ≤ c.toNat ∧ c.toNat ≤ 70 then some (c.toNat - 55)
  else none

/-- Four hex digits as one scalar. -/
def hex4Val (a b c d : Char) : Option Nat := do
  let va ← hexVal a
  let vb ← hexVal b
  let vc ← hexVal c
  let vd ← hexVal d
  some (((va * 16 + vb) * 16 + vc) * 16 + vd)

/-- The two-character escapes `json.loads` accepts. -/
def unescapeChar (e : Char) : Option Char :=
  if e = '"' ∨ e = '\\' ∨ e = '/' then some e
  else if e = 'n' then some (Char.ofNat 10)
  else if e = 't' then some (Char.ofNat 9)
  else if e = 'r' then some (Char.ofNat 13)
  else if e = 'b' then some (Char.ofNat 8)
  else if e = 'f' then some (Char.ofNat 12)
  else none

/-- The code point a surrogate pair `(hi, lo)` encodes. -/
def surrogateChar (hi lo : Nat) : Char :=
  Char.ofNat (0x10000 + (hi - 0xd800) * 0x400 + (lo - 0xdc00))

/-! Reading a string body after the opening quote: literal characters up to
the closing quote, two-character escapes, and `\uXXXX` escapes, recombining a
surrogate pair into one character.  A lone surrogate (legal for `json.loads`,
which builds a Python `str`) has no `Char` counterpart and is out of model;
a raw control character is rejected as in strict `json.loads`. -/

mutual

/-- One character of a string body. -/
def parseStringRest (acc : List Char) : List Char → Option (String × List Char)
  | [] => none
  | c :: rest =>
      if c = '"' then some (⟨acc.reverse⟩, rest)
      else if c = '\\' then parseEscape acc rest
      else if c.toNat < 0x20 then none
      else parseStringRest (c :: acc) rest
termination_by cs => 10 * cs.length

/-- What follows a backslash. -/
def parseEscape (acc : List Char) : List Char → Option (String × List Char)
  | [] => none
  | e :: rest =>
      if e = 'u' then parseUDigits acc rest
      else
        match unescapeChar e with
        | some ch => parseStringRest (ch :: acc) rest
        | none => none
termination_by cs => 10 * cs.length + 9

/-- The four hex digits of a `\uXXXX` escape. -/
def parseUDigits (acc : List Char) : List Char → Option (String × List Char)
  | a :: b :: c :: d :: r2 => parseAfterU acc (hex4Val a b c d) r2
  | _ => none
termination_by cs => 10 * cs.length + 8

/-- Interpret one decoded `\uXXXX` scalar: a plain scalar continues the
string; a high surrogate must be followed by a low-surrogate escape. -/
def parseAfterU (acc : List Char) (v? : Option Nat) (cs : List Char) :
    Option (String × List Char) :=
  match v? with
  | none => none
  | some v =>
      if v < 0xd800 ∨ 0xe000 ≤ v then parseStringRest (Char.ofNat v :: acc) cs
      else if v < 0xdc00 then parseHighSur acc v cs
      else none
termination_by 10 * cs.length + 7

/-- After a high surrogate: the input must continue with a `\uXXXX` escape. -/
def parseHighSur (acc : List Char) (v : Nat) : List Char → Option (String × List Char)
  | '\\' :: 'u' :: a :: b :: c :: d :: rest => parseLowSur acc v (hex4Val a b c d) rest
  | _ => none
termination_by cs => 10 * cs.length + 6

/-- Combine the low-surrogate scalar with the pending high surrogate. -/
def parseLowSur (acc : List Char) (v : Nat) (w? : Option Nat) (rest : List Char) :
    Option (String × List Char) :=
  match w? with
  | some w =>
      if 0xdc00 ≤ w ∧ w < 0xe000 then
        parseStringRest (surrogateChar v w :: acc) rest
      else none
  | none => none
termination_by 10 * rest.length + 5

end

mutual

/-- Read one JSON value (fuel-indexed recursion; the fuel only needs to
exceed the input length). -/
def parseVal : Nat → List Char → Option (Json × List Char)
  | 0, _ => none
  | fuel + 1, cs =>
    match skipJsonWs cs with
    | 'n' :: 'u' :: 'l' :: 'l' :: r => some (.null, r)
    | 't' :: 'r' :: 'u' :: 'e' :: r => some (.bool true, r)
    | 'f' :: 'a' :: 'l' :: 's' :: 'e' :: r => some (.bool false, r)
    | '"' :: r =>
        (match parseStringRest [] r with
         | some (s, r1) => some (.str s, r1)
         | none => none)
    | '[' :: r =>
        (match skipJsonWs r with
         | ']' :: r1 => some (.arr [], r1)
         | r1 =>
            match parseItems fuel r1 with
            | some (xs, r2) => some (.arr xs, r2)
            | none => none)
    | '{' :: r =>
        (match skipJsonWs r with
         | '}' :: r1 => some (.obj [], r1)
         | r1 =>
            match parseMembers fuel r1 with
            | some (ms, r2) => some (.obj ms, r2)
            | none => none)
    | c :: r =>
        if c == '-' || isDigitCh c then
          match parseIntTok (c :: r) with
          | some (i, r1) => some (.num i, r1)
          | none => none
        else none
    | [] => none

/-- Read the one-or-more comma-separated items of a non-empty array. -/
def parseItems : Nat → List Char → Option (List Json × List Char)
  | 0, _ => none
  | fuel + 1, cs =>
    match parseVal fuel cs with
    | none => none
    | some (v, r) =>
        match skipJsonWs r with
        | ',' :: r1 =>
            (match parseItems fuel r1 with
             | some (vs, r2) => some (v :: vs, r2)
             | none => none)
        | ']' :: r1 => some ([v], r1)
        | _ => none

/-- Read the one-or-more members of a non-empty object. -/
def parseMembers : Nat → List Char → Option (List (String × Json) × List Char)
  | 0, _ => none
  | fuel + 1, cs =>
    match skipJsonWs cs with
    | '"' :: r =>
        (match parseStringRest [] r with
         | none => none
         | some (k, r1) =>
            match skipJsonWs r1 with
            | ':' :: r2 =>
                (match parseVal fuel r2 with
                 | none => none
                 | some (v, r3) =>
                    match skipJsonWs r3 with
                    | ',' :: r4 =>
                        (match parseMembers fuel r4 with
                         | some (ms, r5) => some ((k, v) :: ms, r5)
                         | none => none)
                    | '}' :: r4 => some ([(k, v)], r4)
                    | _ => none)
            | _ => none)
    | _ => none

end

/-- `json.loads`: read one value and require only whitespace after it. -/
def loads (s : String) : Option Json :=
  match parseVal (s.data.length + 1) s.data with
  | some (v, r) => if (skipJsonWs r).isEmpty then some v else none
  | none => none

/-! ### Serializable values

A Python-serializable record has string-keyed dicts with distinct keys (a
dict cannot hold a duplicate key); `jsonWf` is that invariant on the model. -/

/-- `k` does not occur among the keys of `kvs`. -/
def keyFresh (k : String) (kvs : List (String × Json)) : Bool :=
  kvs.all (fun kv => kv.1 != k)

mutual

/-- Every object reachable in the value has pairwise-distinct keys. -/
def jsonWf : Json → Bool
  | .null => true
  | .bool _ => true
  | .num _ => true
  | .str _ => true
  | .arr xs => jsonWfArr xs
  | .obj kvs => jsonWfObj kvs

/-- `jsonWf` on every array element. -/
def jsonWfArr : List Json → Bool
  | [] => true
  | x :: xs => jsonWf x && jsonWfArr xs

/-- Distinct keys at this level and `jsonWf` on every member value. -/
def jsonWfObj : List (String × Json) → Bool
  | [] => true
  | (k, v) :: kvs => keyFresh k kvs && jsonWf v && jsonWfObj kvs

end

/-! ## Trace-shape predicates (for the ordering claims) -/

/-- Is this step an HTTP request? -/
def isRequestStep : Step → Bool
  | .request _ => true
  | _ => false

/-- Is this step a `save_json` write? -/
def isSaveStep : Step → Bool
  | .save _ _ => true
  | _ => false

/-- Is this step part of chart rendering? -/
def isRenderStep : Step → Bool
  | .plotSeries _ => true
  | .plotBars _ => true
  | .showChart => true
  | _ => false

/-- Does the request step carry a `timeout=` keyword? (Non-request steps
count as vacuously bounded.) -/
def stepHasTimeout : Step → Bool
  | .request c => c.timeout.isSome
  | _ => true

/-- No `p`-step occurs anywhere after a `q`-step in the trace. -/
def noLaterStep (p q : Step → Bool) : List Step → Bool
  | [] => true
  | s :: rest =>
      (if q s then rest.all (fun t => !(p t)) else true) && noLaterStep p q rest

/-- The effect order claimed for the orchestrator: every HTTP request
precedes every persistence write, and every persistence write precedes
every rendering step. -/
def processThenPersistThenRender (tr : List Step) : Prop :=
  noLaterStep isRequestStep isSaveStep tr = true
  ∧ noLaterStep isSaveStep isRenderStep tr = true

/-! ## The parser contract as the spec words it (for the refinement claim)

The claim's description of `parse`: split on `;`, trim, **drop empty
segments**, split each segment on the **first** `,`. -/

/-- Split `s` at the first occurrence of `sep`, if any. -/
def splitAtFirst (s : String) (sep : Char) : String × Option String :=
  match pySplit s sep with
  | [] => (s, none)
  | [one] => (one, none)
  | first :: more => (first, some (String.intercalate ⟨[sep]⟩ more))

/-- The query tuples the spec's parser description yields. -/
def specParse (raw : String) : List (String × Option String) :=
  (((pySplit raw ';').map pyStrip).filter (fun seg => seg ≠ "")).map (fun seg =>
    let t := splitAtFirst seg ','
    (pyTitle (pyStrip t.1), t.2.map (fun c => pyUpper (pyStrip c))))

/-- The query tuples the code actually issues: one per segment of
`user_locations` (empty segments included), normalized by the
`get_coordinates` preamble. -/
def codeParse (raw : String) : List (String × Option String) :=
  (userLocations raw).map (fun seg => (queryCity seg, queryCountry seg))

/-- What the code's parsing actually does, in the spec's vocabulary: one
query per `;`-segment (empty segments kept, giving a blank city), the
segment split on every `,` with the first part the city (trimmed,
title-cased), the second part — if any — the country code (trimmed,
upper-cased), and any later parts ignored. -/
def amendedParse (raw : String) : List (String × Option String) :=
  (pySplit raw ';').map (fun seg0 =>
    let parts := pySplit (pyStrip seg0) ','
    (pyTitle (pyStrip (parts.headD "")),
     match parts with
     | _ :: c :: _ => some (pyUpper (pyStrip c))
     | _ => none))

/-- A remainder that cannot extend an integer literal: empty, or headed by
something that is neither a digit nor `.`/`e`/`E`. -/
def intDelim : List Char → Bool
  | [] => true
  | c :: _ => !(isDigitCh c || c == '.' || c == 'e' || c == 'E')

/-- The steps a `ReplAction` performs (none unless it runs a batch). -/
def batchTraceOf : ReplAction → List Step
  | .batch tr => tr
  | _ => []

/-! ## Concrete fixtures used by the witnesses and counterexamples -/

/-- A geocoding candidate: Springfield, Illinois. -/
def fixCandA : Json :=
  .obj [("name", .str "Springfield"), ("lat", .num 39), ("lon", .num (-89)),
        ("country", .str "US"), ("state", .str "Illinois")]

/-- A second candidate for the same query: Springfield, Oregon. -/
def fixCandB : Json :=
  .obj [("name", .str "Springfield"), ("lat", .num 44), ("lon", .num (-123)),
        ("country", .str "US"), ("state", .str "Oregon")]

/-- A candidate for London (no `state` field). -/
def fixCandL : Json :=
  .obj [("name", .str "London"), ("lat", .num 51), ("lon", .num 0),
        ("country", .str "GB")]

/-- A candidate for Abuja. -/
def fixCandN : Json :=
  .obj [("name", .str "Abuja"), ("lat", .num 9), ("lon", .num 7),
        ("country", .str "NG")]

/-- A geocoding service that returns two candidates for every query. -/
def fixGeoTwo : String → GeoOutcome := fun _ => .ok [fixCandA, fixCandB]

/-- A geocoding service that returns one candidate for every query. -/
def fixGeoOne : String → GeoOutcome := fun _ => .ok [fixCandA]

/-- A geocoding service that matches London and Abuja and nothing else. -/
def fixGeoMixed : String → GeoOutcome := fun q =>
  if q == "London" then .ok [fixCandL]
  else if q == "Abuja" then .ok [fixCandN]
  else .ok []

/-- A current-weather/forecast record. -/
def fixWxRecord : Json :=
  .obj [("name", .str "Springfield"), ("main", .obj [("temp", .num 21)])]

/-- A weather service that always answers with `fixWxRecord`. -/
def fixWxOk : Option Json × Option Json → WxOutcome := fun _ => .ok fixWxRecord

/-- A weather service that always fails at transport level. -/
def fixWxFail : Option Json × Option Json → WxOutcome :=
  fun _ => .transportError "connection refused"

/-- A weather service whose body never parses as JSON. -/
def fixWxDecode : Option Json × Option Json → WxOutcome :=
  fun _ => .decodeError "Expecting value"

/-- A geocoding service that always fails at transport level. -/
def fixGeoFail : String → GeoOutcome := fun _ => .transportError "connection refused"

/-- A geocoding service whose body never parses as JSON. -/
def fixGeoDecode : String → GeoOutcome := fun _ => .decodeError "Expecting value"

/-- A weather service whose body parses to the empty JSON object. -/
def fixWxEmptyObj : Option Json × Option Json → WxOutcome := fun _ => .ok (.obj [])

/-- A weather service whose body is a truthy object without a `list` key. -/
def fixWxNoList : Option Json × Option Json → WxOutcome :=
  fun _ => .ok (.obj [("cod", .str "200")])

/-- A weather service that fails on London's latitude and succeeds elsewhere. -/
def fixWxMixed : Option Json × Option Json → WxOutcome := fun k =>
  if k.1 == some (Json.num 51) then .transportError "read timed out"
  else .ok fixWxRecord

/-- The location London resolves to under `fixGeoMixed`. -/
def fixLocL : Location := locOfCandidate fixCandL

/-- The location Abuja resolves to under `fixGeoMixed`. -/
def fixLocN : Location := locOfCandidate fixCandN

/-! # Theorems -/

/-! ## General helper lemmas -/

theorem toNat_ofNat_valid (n : Nat) (h : n.isValidChar) : (Char.ofNat n).toNat = n := by
  simp only [Char.ofNat, h, dite_true]
  simp [Char.ofNatAux, Char.toNat, UInt32.toNat]

theorem toUpper_toLower (c : Char) : c.toLower.toUpper = c.toUpper := by
  simp only [Char.toLower, Char.toUpper]
  by_cases h : c.toNat ≥ 65 ∧ c.toNat ≤ 90
  · have hval : (c.toNat + 32).isValidChar := Or.inl (by omega)
    rw [if_pos h, toNat_ofNat_valid _ hval,
        if_pos (by omega : c.toNat + 32 ≥ 97 ∧ c.toNat + 32 ≤ 122),
        if_neg (by omega : ¬(c.toNat ≥ 97 ∧ c.toNat ≤ 122))]
    have h3 : c.toNat + 32 - 32 = c.toNat := by omega
    rw [h3, Char.ofNat_toNat]
  · rw [if_neg h]

theorem toUpper_toUpper (c : Char) : c.toUpper.toUpper = c.toUpper := by
  simp only [Char.toUpper]
  by_cases h : c.toNat ≥ 97 ∧ c.toNat ≤ 122
  · have hval : (c.toNat - 32).isValidChar := Or.inl (by omega)
    rw [if_pos h, toNat_ofNat_valid _ hval,
        if_neg (by omega : ¬(c.toNat - 32 ≥ 97 ∧ c.toNat - 32 ≤ 122))]
  · rw [if_neg h, if_neg h]

theorem mk_data_eq (s : String) : String.mk s.data = s := rfl

theorem pySplitAux_ne_nil (sep : Char) (cur cs : List Char) :
    pySplitAux sep cur cs ≠ [] := by
  induction cs generalizing cur with
  | nil => simp [pySplitAux]
  | cons c cs ih =>
      rw [pySplitAux]
      by_cases h : c == sep <;> simp [h, ih]

theorem pySplit_ne_nil (s : String) (sep : Char) : pySplit s sep ≠ [] :=
  pySplitAux_ne_nil sep [] s.data

theorem jsonHasKey_obj_eq_isSome (k : String) (kvs : List (String × Json)) :
    jsonHasKey k (Json.obj kvs) = (jsonGet (Json.obj kvs) k).isSome := by
  induction kvs with
  | nil => rfl
  | cons kv rest ih =>
      rw [jsonHasKey, jsonGet, List.any_cons, List.find?]
      by_cases h : kv.1 == k
      · simp [h]
      · simp only [h, Bool.false_or]
        rw [jsonHasKey, jsonGet] at ih
        simp [ih]

/-! ## C3: the resolver's rate-limit delay is unconditional -/

/-- C3: every call to either variant's `get_coordinates` — success, empty
result array, transport error, or decode error — ends its effect trace with
the fixed rate-limit sleep, so the delay runs before control returns on
every path, the error paths included. -/
theorem resolver_rate_limit_unconditional (geo : String → GeoOutcome) (location : String) :
    (get_coordinates_info geo location).2.getLast? = some (Step.sleep RATE_LIMIT_DELAY)
    ∧ (get_coordinates_forecast geo location).2.getLast? = some (Step.sleep 1) := by
  constructor
  · cases h : geo (geoQuery location) with
    | ok data =>
        cases data with
        | nil => simp [get_coordinates_info, h]
        | cons d ds => simp [get_coordinates_info, h]
    | transportError e => simp [get_coordinates_info, h]
    | decodeError e => simp [get_coordinates_info, h]
  · cases h : geo (geoQuery location) with
    | ok data =>
        cases data with
        | nil => simp [get_coordinates_forecast, h]
        | cons d ds => simp [get_coordinates_forecast, h]
    | transportError e => simp [get_coordinates_forecast, h]
    | decodeError e => simp [get_coordinates_forecast, h]

/-! ## C2: which candidate does the resolver map?

The snapshot variant takes `data[0]`; the forecast variant's
`for city_data in geo_response_dict:` loop leaves the **last** candidate in
`extracted_info`, although its own comment says the first result is assumed
best.  On a two-candidate response the two variants disagree. -/

/-- C2: on the two-candidate response `[fixCandA, fixCandB]`, the snapshot
variant resolves to the first candidate but the forecast variant resolves to
the last one, and the two locations differ — refuting "returns the Location
mapped from the first element" for the forecast variant. -/
theorem resolver_first_candidate_eval :
    (get_coordinates_info fixGeoTwo "springfield").1 = some (locOfCandidate fixCandA)
    ∧ (get_coordinates_forecast fixGeoTwo "springfield").1 = some (locOfCandidate fixCandB)
    ∧ locOfCandidate fixCandA ≠ locOfCandidate fixCandB := by decide

/-! ## C9: the renderers degrade gracefully on empty input -/

theorem plot_forecast_no_list (kvs : List (String × Json)) (city : String)
    (h : jsonGet (Json.obj kvs) "list" = none
          ∨ ∃ l, jsonGet (Json.obj kvs) "list" = some l ∧ jsonTruthy l = false) :
    plot_forecast (Json.obj kvs) city
      = [Step.printLine ("No forecast data available for " ++ city ++ ".")] := by
  rcases h with h | ⟨l, hl, hfalse⟩
  · have hk : jsonHasKey "list" (Json.obj kvs) = false := by
      rw [jsonHasKey_obj_eq_isSome, h]
      rfl
    simp [plot_forecast, hk]
  · simp [plot_forecast, hl, hfalse]

/-- C9: a forecast response object whose `list` key is missing, or maps to a
falsy (e.g. empty) value, produces only the logged notice — no plotted
series, no failure; and snapshot-mode rendering of an empty record list is
exactly the logged no-op. -/
theorem renderers_degrade_on_empty :
    (∀ (kvs : List (String × Json)) (city : String),
        (jsonGet (Json.obj kvs) "list" = none
          ∨ ∃ l, jsonGet (Json.obj kvs) "list" = some l ∧ jsonTruthy l = false) →
        plot_forecast (Json.obj kvs) city
          = [Step.printLine ("No forecast data available for " ++ city ++ ".")])
    ∧ plot_temperatures [] = [Step.printLine "No weather data to plot."] :=
  ⟨fun kvs city h => plot_forecast_no_list kvs city h, rfl⟩

/-- C9 witness: the degradation at a concrete response (`{"cod": 200}`,
no `list` key). -/
theorem renderers_degrade_on_empty_witness :
    plot_forecast (Json.obj [("cod", Json.num 200)]) "Lagos"
      = [Step.printLine "No forecast data available for Lagos."]
    ∧ plot_temperatures [] = [Step.printLine "No weather data to plot."] :=
  ⟨renderers_degrade_on_empty.1 [("cod", Json.num 200)] "Lagos" (Or.inl (by decide)),
   renderers_degrade_on_empty.2⟩

/-! ## C6: input validation -/

theorem request_mem_get_coordinates_info (geo : String → GeoOutcome) (loc : String) :
    Step.request ⟨geoUrl, some (geoQuery loc), none, none, some REQUEST_TIMEOUT⟩
      ∈ (get_coordinates_info geo loc).2 := by
  cases h : geo (geoQuery loc) with
  | ok data => cases data <;> simp [get_coordinates_info, h]
  | transportError e => simp [get_coordinates_info, h]
  | decodeError e => simp [get_coordinates_info, h]

theorem request_mem_get_coordinates_forecast (geo : String → GeoOutcome) (loc : String) :
    Step.request ⟨geoUrl, some (geoQuery loc), none, none, none⟩
      ∈ (get_coordinates_forecast geo loc).2 := by
  cases h : geo (geoQuery loc) with
  | ok data => cases data <;> simp [get_coordinates_forecast, h]
  | transportError e => simp [get_coordinates_forecast, h]
  | decodeError e => simp [get_coordinates_forecast, h]

/-- C6 counterexample: the whitespace-only input `"   "` is **not** rejected:
neither variant treats it as invalid input, and the snapshot variant's batch
performs network activity (an HTTP request step is in its trace) — refuting
"parsing signals an InputError … and the batch is rejected before any
network activity" for whitespace-only strings. -/
theorem whitespace_input_not_rejected_cex :
    main_iteration_info fixGeoMixed fixWxOk "   " ≠ ReplAction.invalid
    ∧ (batchTraceOf (main_iteration_info fixGeoMixed fixWxOk "   ")).any isRequestStep = true
    ∧ main_iteration_forecast fixGeoMixed fixWxOk "   " ≠ ReplAction.invalid := by
  decide

/-- C6 amended: only the entirely empty string is rejected (`if not
user_input:`); a whitespace-only input proceeds into the batch and issues a
geocoding request with an empty query, regardless of the oracles. -/
theorem only_empty_input_rejected (geo : String → GeoOutcome)
    (wx : Option Json × Option Json → WxOutcome) :
    (∀ s, main_iteration_info geo wx s = ReplAction.invalid ↔ s = "")
    ∧ (∀ s, main_iteration_forecast geo wx s = ReplAction.invalid ↔ s = "")
    ∧ Step.request ⟨geoUrl, some "", none, none, some REQUEST_TIMEOUT⟩
        ∈ batchTraceOf (main_iteration_info geo wx "   ")
    ∧ Step.request ⟨geoUrl, some "", none, none, none⟩
        ∈ batchTraceOf (main_iteration_forecast geo wx "   ") := by
  refine ⟨?_, ?_, ?_, ?_⟩
  · intro s
    by_cases h1 : s = "quit"
    · subst h1
      simp [main_iteration_info]
    · by_cases h2 : s = ""
      · subst h2
        simp [main_iteration_info]
      · simp [main_iteration_info, h1, h2]
  · intro s
    by_cases h1 : s = "quit"
    · subst h1
      simp [main_iteration_forecast]
    · by_cases h2 : s = ""
      · subst h2
        simp [main_iteration_forecast]
      · simp [main_iteration_forecast, h1, h2]
  · have hs : pyStrip "   " = "" := rfl
    have hq : geoQuery "" = "" := rfl
    have hm := request_mem_get_coordinates_info geo ""
    rw [hq] at hm
    simp [main_iteration_info, batchTraceOf, userLocations, resolve_loop_info, hs, hm]
  · have hs : pyStrip "   " = "" := rfl
    have hq : geoQuery "" = "" := rfl
    have hm := request_mem_get_coordinates_forecast geo ""
    rw [hq] at hm
    simp [main_iteration_forecast, batchTraceOf, userLocations, resolve_loop_forecast, hs, hm]

/-! ## C7: what the parsing stage produces -/

/-- C7 counterexample: on `"a;;b,c,d"` the behavior the claim describes
(drop empty segments, split each segment at the first comma) disagrees with
what the code produces (keep empty segments, country code from the second
comma-part only). -/
theorem parse_spec_mismatch_cex : specParse "a;;b,c,d" ≠ codeParse "a;;b,c,d" := by
  decide

theorem pyUpper_pyTitle (s : String) : pyUpper (pyTitle s) = pyUpper s := by
  have key : ∀ (b : Bool) (cs : List Char),
      (pyTitleAux b cs).map Char.toUpper = cs.map Char.toUpper := by
    intro b cs
    induction cs generalizing b with
    | nil => rfl
    | cons c cs ih =>
        rw [pyTitleAux]
        simp only [List.map_cons, ih]
        by_cases ha : pyIsAlpha c = true
        · cases b with
          | true => simp [ha, toUpper_toLower]
          | false => simp [ha, toUpper_toUpper]
        · simp [ha]
  unfold pyUpper pyTitle
  exact congrArg String.mk (key false s.data)

/-- C7 amended: the parsing stage yields one query per `;`-segment with
empty segments **kept** (each contributing a blank-city query), the city
from the first comma-part (trimmed, title-cased), the country code from the
second comma-part only (trimmed, upper-cased), and parts after the second
comma ignored. -/
theorem parse_segments_characterization (raw : String) :
    codeParse raw = amendedParse raw := by
  unfold codeParse amendedParse userLocations
  rw [List.map_map]
  apply List.map_congr_left
  intro seg0 _
  simp only [Function.comp]
  unfold queryCity queryCountry queryParts
  cases hp : pySplit (pyStrip seg0) ',' with
  | nil => exact absurd hp (pySplit_ne_nil _ _)
  | cons a rest =>
      cases rest with
      | nil => simp
      | cons c0 rest2 => simp [pyUpper_pyTitle]

/-! ## C4: transport/decode failures, and which calls carry a timeout -/

/-- C4 counterexample: in the forecast variant neither `requests.get` call
site passes a `timeout=` keyword, so no request-level timeout bounds those
HTTP calls — refuting the claim's premise for that variant. -/
theorem retriever_timeout_cex :
    (get_weather_forecast fixWxFail fixLocL).2.all stepHasTimeout = false
    ∧ (get_coordinates_forecast fixGeoOne "London").2.all stepHasTimeout = false := by
  decide

theorem request_mem_get_weather_forecast (wx : Option Json × Option Json → WxOutcome)
    (ci : Location) :
    Step.request ⟨forecastUrl, none, ci.latitude, ci.longitude, none⟩
      ∈ (get_weather_forecast wx ci).2 := by
  cases h : wx (ci.latitude, ci.longitude) with
  | ok j => simp [get_weather_forecast, h]
  | transportError e => simp [get_weather_forecast, h]
  | decodeError e => simp [get_weather_forecast, h]

/-- C4 amended: a transport failure or a malformed JSON body at either stage
yields an absent result plus a logged line naming the offending city/query,
and the error is never raised (the call returns normally).  The snapshot
variant's HTTP calls are all bounded by the 10-second request timeout, so a
timeout there surfaces as a `RequestException` handled like any transport
failure; the forecast variant's calls pass no `timeout=` at all. -/
theorem transport_errors_absent_and_logged :
    (∀ (geo : String → GeoOutcome) (loc : String),
        (get_coordinates_info geo loc).2.all stepHasTimeout = true)
    ∧ (∀ (wx : Option Json × Option Json → WxOutcome) (ci : Location),
        (get_weather_data wx ci).2.all stepHasTimeout = true)
    ∧ (∀ (geo : String → GeoOutcome) (loc : String),
        Step.request ⟨geoUrl, some (geoQuery loc), none, none, none⟩
          ∈ (get_coordinates_forecast geo loc).2)
    ∧ (∀ (wx : Option Json × Option Json → WxOutcome) (ci : Location),
        Step.request ⟨forecastUrl, none, ci.latitude, ci.longitude, none⟩
          ∈ (get_weather_forecast wx ci).2)
    ∧ (∀ (geo : String → GeoOutcome) (loc : String) (e : String),
        geo (geoQuery loc) = .transportError e →
        (get_coordinates_info geo loc).1 = none
        ∧ Step.printLine ("Error fetching coordinates for " ++ queryCity loc ++ ", "
            ++ ccOrEmpty (queryCountry loc) ++ ": " ++ e)
          ∈ (get_coordinates_info geo loc).2)
    ∧ (∀ (geo : String → GeoOutcome) (loc : String) (e : String),
        geo (geoQuery loc) = .decodeError e →
        (get_coordinates_info geo loc).1 = none
        ∧ Step.printLine ("Error decoding JSON response for " ++ queryCity loc ++ ", "
            ++ ccOrEmpty (queryCountry loc) ++ ": " ++ e)
          ∈ (get_coordinates_info geo loc).2)
    ∧ (∀ (wx : Option Json × Option Json → WxOutcome) (ci : Location) (e : String),
        wx (ci.latitude, ci.longitude) = .transportError e →
        (get_weather_data wx ci).1 = none
        ∧ Step.printLine ("Error fetching weather data for " ++ pyShow ci.name ++ ": " ++ e)
          ∈ (get_weather_data wx ci).2)
    ∧ (∀ (wx : Option Json × Option Json → WxOutcome) (ci : Location) (e : String),
        wx (ci.latitude, ci.longitude) = .decodeError e →
        (get_weather_data wx ci).1 = none
        ∧ Step.printLine ("Error decoding JSON response for " ++ pyShow ci.name ++ ": " ++ e)
          ∈ (get_weather_data wx ci).2)
    ∧ (∀ (geo : String → GeoOutcome) (loc : String) (e : String),
        geo (geoQuery loc) = .transportError e →
        (get_coordinates_forecast geo loc).1 = none
        ∧ Step.printLine ("Error fetching coordinates for " ++ queryCity loc ++ ", "
            ++ ccOrEmpty (queryCountry loc) ++ ": " ++ e)
          ∈ (get_coordinates_forecast geo loc).2)
    ∧ (∀ (geo : String → GeoOutcome) (loc : String) (e : String),
        geo (geoQuery loc) = .decodeError e →
        (get_coordinates_forecast geo loc).1 = none
        ∧ Step.printLine ("Error decoding JSON response for coordinates of "
            ++ queryCity loc ++ ", " ++ ccOrEmpty (queryCountry loc) ++ ": " ++ e)
          ∈ (get_coordinates_forecast geo loc).2)
    ∧ (∀ (wx : Option Json × Option Json → WxOutcome) (ci : Location) (e : String),
        wx (ci.latitude, ci.longitude) = .transportError e →
        (get_weather_forecast wx ci).1 = none
        ∧ Step.printLine ("Error fetching weather for " ++ pyShow ci.name ++ ": " ++ e)
          ∈ (get_weather_forecast wx ci).2)
    ∧ (∀ (wx : Option Json × Option Json → WxOutcome) (ci : Location) (e : String),
        wx (ci.latitude, ci.longitude) = .decodeError e →
        (get_weather_forecast wx ci).1 = none
        ∧ Step.printLine ("Error decoding JSON response for weather in "
            ++ pyShow ci.name ++ ": " ++ e)
          ∈ (get_weather_forecast wx ci).2) := by
  refine ⟨?_, ?_, request_mem_get_coordinates_forecast, request_mem_get_weather_forecast,
          ?_, ?_, ?_, ?_, ?_, ?_, ?_, ?_⟩
  · intro geo loc
    cases h : geo (geoQuery loc) with
    | ok data => cases data <;> simp [get_coordinates_info, h, stepHasTimeout]
    | transportError e => simp [get_coordinates_info, h, stepHasTimeout]
    | decodeError e => simp [get_coordinates_info, h, stepHasTimeout]
  · intro wx ci
    cases h : wx (ci.latitude, ci.longitude) with
    | ok j => simp [get_weather_data, h, stepHasTimeout]
    | transportError e => simp [get_weather_data, h, stepHasTimeout]
    | decodeError e => simp [get_weather_data, h, stepHasTimeout]
  · intro geo loc e h
    exact ⟨by simp [get_coordinates_info, h], by simp [get_coordinates_info, h]⟩
  · intro geo loc e h
    exact ⟨by simp [get_coordinates_info, h], by simp [get_coordinates_info, h]⟩
  · intro wx ci e h
    exact ⟨by simp [get_weather_data, h], by simp [get_weather_data, h]⟩
  · intro wx ci e h
    exact ⟨by simp [get_weather_data, h], by simp [get_weather_data, h]⟩
  · intro geo loc e h
    exact ⟨by simp [get_coordinates_forecast, h], by simp [get_coordinates_forecast, h]⟩
  · intro geo loc e h
    exact ⟨by simp [get_coordinates_forecast, h], by simp [get_coordinates_forecast, h]⟩
  · intro wx ci e h
    exact ⟨by simp [get_weather_forecast, h], by simp [get_weather_forecast, h]⟩
  · intro wx ci e h
    exact ⟨by simp [get_weather_forecast, h], by simp [get_weather_forecast, h]⟩

/-- C4 witness: the error handling at concrete failing services, each error
kind and stage exercised with its hypothesis discharged by computation. -/
theorem transport_errors_absent_and_logged_witness :
    ((get_coordinates_info fixGeoFail "London").1 = none
      ∧ Step.printLine ("Error fetching coordinates for " ++ queryCity "London" ++ ", "
          ++ ccOrEmpty (queryCountry "London") ++ ": " ++ "connection refused")
        ∈ (get_coordinates_info fixGeoFail "London").2)
    ∧ ((get_coordinates_info fixGeoDecode "London").1 = none
      ∧ Step.printLine ("Error decoding JSON response for " ++ queryCity "London" ++ ", "
          ++ ccOrEmpty (queryCountry "London") ++ ": " ++ "Expecting value")
        ∈ (get_coordinates_info fixGeoDecode "London").2)
    ∧ ((get_weather_data fixWxFail fixLocL).1 = none
      ∧ Step.printLine ("Error fetching weather data for " ++ pyShow fixLocL.name
          ++ ": " ++ "connection refused")
        ∈ (get_weather_data fixWxFail fixLocL).2)
    ∧ ((get_weather_data fixWxDecode fixLocL).1 = none
      ∧ Step.printLine ("Error decoding JSON response for " ++ pyShow fixLocL.name
          ++ ": " ++ "Expecting value")
        ∈ (get_weather_data fixWxDecode fixLocL).2)
    ∧ ((get_coordinates_forecast fixGeoFail "London").1 = none
      ∧ Step.printLine ("Error fetching coordinates for " ++ queryCity "London" ++ ", "
          ++ ccOrEmpty (queryCountry "London") ++ ": " ++ "connection refused")
        ∈ (get_coordinates_forecast fixGeoFail "London").2)
    ∧ ((get_coordinates_forecast fixGeoDecode "London").1 = none
      ∧ Step.printLine ("Error decoding JSON response for coordinates of "
          ++ queryCity "London" ++ ", " ++ ccOrEmpty (queryCountry "London")
          ++ ": " ++ "Expecting value")
        ∈ (get_coordinates_forecast fixGeoDecode "London").2)
    ∧ ((get_weather_forecast fixWxFail fixLocL).1 = none
      ∧ Step.printLine ("Error fetching weather for " ++ pyShow fixLocL.name
          ++ ": " ++ "connection refused")
        ∈ (get_weather_forecast fixWxFail fixLocL).2)
    ∧ ((get_weather_forecast fixWxDecode fixLocL).1 = none
      ∧ Step.printLine ("Error decoding JSON response for weather in "
          ++ pyShow fixLocL.name ++ ": " ++ "Expecting value")
        ∈ (get_weather_forecast fixWxDecode fixLocL).2) := by
  obtain ⟨-, -, -, -, h5, h6, h7, h8, h9, h10, h11, h12⟩ := transport_errors_absent_and_logged
  exact ⟨h5 fixGeoFail "London" "connection refused" rfl,
         h6 fixGeoDecode "London" "Expecting value" rfl,
         h7 fixWxFail fixLocL "connection refused" rfl,
         h8 fixWxDecode fixLocL "Expecting value" rfl,
         h9 fixGeoFail "London" "connection refused" rfl,
         h10 fixGeoDecode "London" "Expecting value" rfl,
         h11 fixWxFail fixLocL "connection refused" rfl,
         h12 fixWxDecode fixLocL "Expecting value" rfl⟩

/-! ## C5: the orchestrator's actual effect order -/

theorem resolver_info_steps_kind (geo : String → GeoOutcome) (loc : String) :
    (get_coordinates_info geo loc).2.all
      (fun s => !isSaveStep s && !isRenderStep s) = true := by
  cases h : geo (geoQuery loc) with
  | ok data =>
      cases data <;> simp [get_coordinates_info, h, isSaveStep, isRenderStep]
  | transportError e => simp [get_coordinates_info, h, isSaveStep, isRenderStep]
  | decodeError e => simp [get_coordinates_info, h, isSaveStep, isRenderStep]

theorem resolver_forecast_steps_kind (geo : String → GeoOutcome) (loc : String) :
    (get_coordinates_forecast geo loc).2.all
      (fun s => !isSaveStep s && !isRenderStep s) = true := by
  cases h : geo (geoQuery loc) with
  | ok data =>
      cases data <;> simp [get_coordinates_forecast, h, isSaveStep, isRenderStep]
  | transportError e => simp [get_coordinates_forecast, h, isSaveStep, isRenderStep]
  | decodeError e => simp [get_coordinates_forecast, h, isSaveStep, isRenderStep]

theorem retriever_info_steps_kind (wx : Option Json × Option Json → WxOutcome)
    (ci : Location) :
    (get_weather_data wx ci).2.all
      (fun s => !isSaveStep s && !isRenderStep s) = true := by
  cases h : wx (ci.latitude, ci.longitude) with
  | ok j => simp [get_weather_data, h, isSaveStep, isRenderStep]
  | transportError e => simp [get_weather_data, h, isSaveStep, isRenderStep]
  | decodeError e => simp [get_weather_data, h, isSaveStep, isRenderStep]

theorem retriever_forecast_steps_kind (wx : Option Json × Option Json → WxOutcome)
    (ci : Location) :
    (get_weather_forecast wx ci).2.all (fun s => !isSaveStep s) = true := by
  cases h : wx (ci.latitude, ci.longitude) with
  | ok j => simp [get_weather_forecast, h, isSaveStep]
  | transportError e => simp [get_weather_forecast, h, isSaveStep]
  | decodeError e => simp [get_weather_forecast, h, isSaveStep]

theorem plot_forecast_steps_kind (f : Json) (city : String) :
    (plot_forecast f city).all (fun s => !isSaveStep s) = true := by
  unfold plot_forecast
  split <;> simp [isSaveStep]

theorem plot_temperatures_steps_kind (recs : List Json) :
    (plot_temperatures recs).all (fun s => !isRequestStep s && !isSaveStep s) = true := by
  unfold plot_temperatures
  split <;> simp [isRequestStep, isSaveStep]

theorem resolve_loop_info_steps_kind (geo : String → GeoOutcome) (segs : List String) :
    (resolve_loop_info geo segs).2.all
      (fun s => !isSaveStep s && !isRenderStep s) = true := by
  induction segs with
  | nil => rfl
  | cons a rest ih =>
      rw [resolve_loop_info]
      simp only [List.all_append]
      rw [resolver_info_steps_kind geo a, ih]
      rfl

theorem resolve_loop_forecast_steps_kind (geo : String → GeoOutcome) (segs : List String) :
    (resolve_loop_forecast geo segs).2.all
      (fun s => !isSaveStep s && !isRenderStep s) = true := by
  induction segs with
  | nil => rfl
  | cons a rest ih =>
      rw [resolve_loop_forecast]
      simp only [List.all_append]
      rw [resolver_forecast_steps_kind geo a, ih]
      rfl

theorem retrieve_loop_info_steps_kind (wx : Option Json × Option Json → WxOutcome)
    (cis : List Location) :
    (retrieve_loop_info wx cis).2.all
      (fun s => !isSaveStep s && !isRenderStep s) = true := by
  induction cis with
  | nil => rfl
  | cons a rest ih =>
      rw [retrieve_loop_info]
      simp only [List.all_append]
      rw [retriever_info_steps_kind wx a, ih]
      rfl

theorem retrieve_loop_forecast_steps_kind (wx : Option Json × Option Json → WxOutcome)
    (cis : List Location) :
    (retrieve_loop_forecast wx cis).2.all (fun s => !isSaveStep s) = true := by
  induction cis with
  | nil => rfl
  | cons a rest ih =>
      rw [retrieve_loop_forecast]
      cases h : (get_weather_forecast wx a).1 with
      | some f =>
          by_cases htf : jsonTruthy f = true
          · simp [htf, List.all_append, retriever_forecast_steps_kind wx a,
                  plot_forecast_steps_kind, ih]
          · simp [htf, List.all_append, retriever_forecast_steps_kind wx a, ih]
      | none =>
          simp [List.all_append, retriever_forecast_steps_kind wx a, ih]

/-- C5 counterexample: on a concrete one-city batch, neither variant's trace
satisfies the claimed order "all processing, then persist locations, then
persist weather records, then render": the locations artifact is written
while weather requests are still to come, and in the forecast variant the
chart is rendered before the weather artifact is written. -/
theorem persist_order_cex :
    ¬ processThenPersistThenRender
        (batchTraceOf (main_iteration_info fixGeoOne fixWxOk "Lagos"))
    ∧ ¬ processThenPersistThenRender
        (batchTraceOf (main_iteration_forecast fixGeoOne fixWxOk "Lagos")) := by
  unfold processThenPersistThenRender
  decide

/-- C5 amended: both variants persist the resolved locations right after the
resolution phase and **before** any weather retrieval.  The snapshot variant
then retrieves (no saves, no rendering in that phase), persists the weather
records, and only then renders.  The forecast variant retrieves and renders
each city's series inside the retrieval loop, shows the chart, and persists
the weather records **last**; its retrieval phase performs no saves. -/
theorem batch_effect_order (geo : String → GeoOutcome)
    (wx : Option Json × Option Json → WxOutcome) (input : String)
    (h1 : input ≠ "quit") (h2 : input ≠ "") :
    (∀ rres wres, rres = resolve_loop_info geo (userLocations input) →
      wres = retrieve_loop_info wx rres.1 →
      main_iteration_info geo wx input = .batch (rres.2
          ++ save_json_steps (Json.arr (rres.1.map locationToJson)) COORDINATES_FILE
          ++ wres.2
          ++ save_json_steps (Json.arr wres.1) WEATHER_DATA_FILE
          ++ plot_temperatures wres.1)
        ∧ rres.2.all (fun s => !isSaveStep s && !isRenderStep s) = true
        ∧ wres.2.all (fun s => !isSaveStep s && !isRenderStep s) = true
        ∧ (plot_temperatures wres.1).all (fun s => !isRequestStep s && !isSaveStep s) = true)
    ∧ (∀ rres wres, rres = resolve_loop_forecast geo (userLocations input) →
      wres = retrieve_loop_forecast wx rres.1 →
      main_iteration_forecast geo wx input = .batch (rres.2
          ++ save_json_steps (Json.arr (rres.1.map locationToJson)) COORDINATES_FILE
          ++ wres.2
          ++ [Step.showChart]
          ++ save_json_steps (Json.arr wres.1) FORECAST_FILE)
        ∧ rres.2.all (fun s => !isSaveStep s && !isRenderStep s) = true
        ∧ wres.2.all (fun s => !isSaveStep s) = true) := by
  constructor
  · intro rres wres hr hw
    subst hr
    subst hw
    refine ⟨?_, resolve_loop_info_steps_kind geo _, retrieve_loop_info_steps_kind wx _,
            plot_temperatures_steps_kind _⟩
    simp [main_iteration_info, h1, h2]
  · intro rres wres hr hw
    subst hr
    subst hw
    refine ⟨?_, resolve_loop_forecast_steps_kind geo _,
            retrieve_loop_forecast_steps_kind wx _⟩
    simp [main_iteration_forecast, h1, h2]

/-- C5 witness: the amended order at a concrete one-city batch. -/
theorem batch_effect_order_witness :
    (∀ rres wres, rres = resolve_loop_info fixGeoOne (userLocations "Lagos") →
      wres = retrieve_loop_info fixWxOk rres.1 →
      main_iteration_info fixGeoOne fixWxOk "Lagos" = .batch (rres.2
          ++ save_json_steps (Json.arr (rres.1.map locationToJson)) COORDINATES_FILE
          ++ wres.2
          ++ save_json_steps (Json.arr wres.1) WEATHER_DATA_FILE
          ++ plot_temperatures wres.1)
        ∧ rres.2.all (fun s => !isSaveStep s && !isRenderStep s) = true
        ∧ wres.2.all (fun s => !isSaveStep s && !isRenderStep s) = true
        ∧ (plot_temperatures wres.1).all (fun s => !isRequestStep s && !isSaveStep s) = true)
    ∧ (∀ rres wres, rres = resolve_loop_forecast fixGeoOne (userLocations "Lagos") →
      wres = retrieve_loop_forecast fixWxOk rres.1 →
      main_iteration_forecast fixGeoOne fixWxOk "Lagos" = .batch (rres.2
          ++ save_json_steps (Json.arr (rres.1.map locationToJson)) COORDINATES_FILE
          ++ wres.2
          ++ [Step.showChart]
          ++ save_json_steps (Json.arr wres.1) FORECAST_FILE)
        ∧ rres.2.all (fun s => !isSaveStep s && !isRenderStep s) = true
        ∧ wres.2.all (fun s => !isSaveStep s) = true) :=
  batch_effect_order fixGeoOne fixWxOk "Lagos" (by decide) (by decide)

/-! ## C1: failures are independent per city within one batch -/

theorem resolve_loop_info_append (geo : String → GeoOutcome) (xs ys : List String) :
    resolve_loop_info geo (xs ++ ys)
      = ((resolve_loop_info geo xs).1 ++ (resolve_loop_info geo ys).1,
         (resolve_loop_info geo xs).2 ++ (resolve_loop_info geo ys).2) := by
  induction xs with
  | nil => simp [resolve_loop_info]
  | cons a rest ih =>
      simp only [List.cons_append, resolve_loop_info, ih]
      cases (get_coordinates_info geo a).1 <;> simp [ih]

theorem resolve_loop_forecast_append (geo : String → GeoOutcome) (xs ys : List String) :
    resolve_loop_forecast geo (xs ++ ys)
      = ((resolve_loop_forecast geo xs).1 ++ (resolve_loop_forecast geo ys).1,
         (resolve_loop_forecast geo xs).2 ++ (resolve_loop_forecast geo ys).2) := by
  induction xs with
  | nil => simp [resolve_loop_forecast]
  | cons a rest ih =>
      simp only [List.cons_append, resolve_loop_forecast, ih]
      cases (get_coordinates_forecast geo a).1 <;> simp [ih]

theorem retrieve_loop_info_append (wx : Option Json × Option Json → WxOutcome)
    (us vs : List Location) :
    retrieve_loop_info wx (us ++ vs)
      = ((retrieve_loop_info wx us).1 ++ (retrieve_loop_info wx vs).1,
         (retrieve_loop_info wx us).2 ++ (retrieve_loop_info wx vs).2) := by
  induction us with
  | nil => simp [retrieve_loop_info]
  | cons a rest ih =>
      simp only [List.cons_append, retrieve_loop_info, ih]
      cases (get_weather_data wx a).1 with
      | some j => by_cases hj : jsonTruthy j = true <;> simp [hj, ih]
      | none => simp [ih]

theorem retrieve_loop_forecast_append (wx : Option Json × Option Json → WxOutcome)
    (us vs : List Location) :
    retrieve_loop_forecast wx (us ++ vs)
      = ((retrieve_loop_forecast wx us).1 ++ (retrieve_loop_forecast wx vs).1,
         (retrieve_loop_forecast wx us).2 ++ (retrieve_loop_forecast wx vs).2) := by
  induction us with
  | nil => simp [retrieve_loop_forecast]
  | cons a rest ih =>
      simp only [List.cons_append, retrieve_loop_forecast, ih]
      cases (get_weather_forecast wx a).1 with
      | some j => by_cases hj : jsonTruthy j = true <;> simp [hj, ih]
      | none => simp [ih]

theorem mem_resolve_loop_info (geo : String → GeoOutcome) (segs : List String)
    (s : String) (l : Location) (hs : s ∈ segs)
    (hl : (get_coordinates_info geo s).1 = some l) :
    l ∈ (resolve_loop_info geo segs).1 := by
  induction segs with
  | nil => cases hs
  | cons a rest ih =>
      rw [resolve_loop_info]
      rcases List.mem_cons.mp hs with hhead | htail
      · subst hhead
        simp [hl]
      · cases (get_coordinates_info geo a).1 with
        | some x => exact List.mem_cons_of_mem x (ih htail)
        | none => exact ih htail

theorem mem_resolve_loop_forecast (geo : String → GeoOutcome) (segs : List String)
    (s : String) (l : Location) (hs : s ∈ segs)
    (hl : (get_coordinates_forecast geo s).1 = some l) :
    l ∈ (resolve_loop_forecast geo segs).1 := by
  induction segs with
  | nil => cases hs
  | cons a rest ih =>
      rw [resolve_loop_forecast]
      rcases List.mem_cons.mp hs with hhead | htail
      · subst hhead
        simp [hl]
      · cases (get_coordinates_forecast geo a).1 with
        | some x => exact List.mem_cons_of_mem x (ih htail)
        | none => exact ih htail

theorem mem_retrieve_loop_info (wx : Option Json × Option Json → WxOutcome)
    (cis : List Location) (ci : Location) (r : Json) (hci : ci ∈ cis)
    (hr : (get_weather_data wx ci).1 = some r) (ht : jsonTruthy r = true) :
    r ∈ (retrieve_loop_info wx cis).1 := by
  induction cis with
  | nil => cases hci
  | cons a rest ih =>
      rw [retrieve_loop_info]
      rcases List.mem_cons.mp hci with hhead | htail
      · subst hhead
        simp [hr, ht]
      · cases ha : (get_weather_data wx a).1 with
        | some f =>
            by_cases htf : jsonTruthy f = true
            · simp only [ha, htf, if_true]
              exact List.mem_cons_of_mem f (ih htail)
            · simp only [ha]
              rw [if_neg htf]
              exact ih htail
        | none =>
            simp only [ha]
            exact ih htail

theorem mem_retrieve_loop_forecast (wx : Option Json × Option Json → WxOutcome)
    (cis : List Location) (ci : Location) (r : Json) (hci : ci ∈ cis)
    (hr : (get_weather_forecast wx ci).1 = some r) (ht : jsonTruthy r = true) :
    r ∈ (retrieve_loop_forecast wx cis).1 := by
  induction cis with
  | nil => cases hci
  | cons a rest ih =>
      rw [retrieve_loop_forecast]
      rcases List.mem_cons.mp hci with hhead | htail
      · subst hhead
        simp [hr, ht]
      · cases ha : (get_weather_forecast wx a).1 with
        | some f =>
            by_cases htf : jsonTruthy f = true
            · simp only [ha, htf, if_true]
              exact List.mem_cons_of_mem f (ih htail)
            · simp only [ha]
              rw [if_neg htf]
              exact ih htail
        | none =>
            simp only [ha]
            exact ih htail

/-- C1: within one batch, in both variants: (i) a query whose resolution
fails contributes no location and no retrieval — the extracted list equals
the one for the batch without it, while its own resolver steps still run in
place and every other query's processing is untouched; (ii) every resolved
query's location is in the extracted list (so the locations artifact holds
both A and B whenever both resolved); (iii) a resolved city whose retrieval
fails contributes no weather record — the collected records equal those of
the batch without it, the batch continuing; (iv) a city whose retrieval
succeeds with a truthy record has that record collected; (v) the orchestrator
persists exactly the extracted-locations list and the collected-records
list as the two artifacts. -/
theorem batch_failures_independent (geo : String → GeoOutcome)
    (wx : Option Json × Option Json → WxOutcome) :
    ((∀ xs ys s, (get_coordinates_info geo s).1 = none →
        (resolve_loop_info geo (xs ++ s :: ys)).1 = (resolve_loop_info geo (xs ++ ys)).1
        ∧ (resolve_loop_info geo (xs ++ s :: ys)).2
            = (resolve_loop_info geo xs).2 ++ (get_coordinates_info geo s).2
              ++ (resolve_loop_info geo ys).2)
      ∧ (∀ segs s l, s ∈ segs → (get_coordinates_info geo s).1 = some l →
          l ∈ (resolve_loop_info geo segs).1)
      ∧ (∀ us vs a, (get_weather_data wx a).1 = none →
          (retrieve_loop_info wx (us ++ a :: vs)).1
              = (retrieve_loop_info wx (us ++ vs)).1
          ∧ (retrieve_loop_info wx (us ++ a :: vs)).2
              = (retrieve_loop_info wx us).2 ++ (get_weather_data wx a).2
                ++ (retrieve_loop_info wx vs).2)
      ∧ (∀ cis b r, b ∈ cis → (get_weather_data wx b).1 = some r →
          jsonTruthy r = true → r ∈ (retrieve_loop_info wx cis).1)
      ∧ (∀ input : String, input ≠ "quit" → input ≠ "" →
          Step.save COORDINATES_FILE
              (Json.arr ((resolve_loop_info geo (userLocations input)).1.map locationToJson))
            ∈ batchTraceOf (main_iteration_info geo wx input)
          ∧ Step.save WEATHER_DATA_FILE
              (Json.arr (retrieve_loop_info wx
                (resolve_loop_info geo (userLocations input)).1).1)
            ∈ batchTraceOf (main_iteration_info geo wx input)))
    ∧ ((∀ xs ys s, (get_coordinates_forecast geo s).1 = none →
        (resolve_loop_forecast geo (xs ++ s :: ys)).1
            = (resolve_loop_forecast geo (xs ++ ys)).1
        ∧ (resolve_loop_forecast geo (xs ++ s :: ys)).2
            = (resolve_loop_forecast geo xs).2 ++ (get_coordinates_forecast geo s).2
              ++ (resolve_loop_forecast geo ys).2)
      ∧ (∀ segs s l, s ∈ segs → (get_coordinates_forecast geo s).1 = some l →
          l ∈ (resolve_loop_forecast geo segs).1)
      ∧ (∀ us vs a, (get_weather_forecast wx a).1 = none →
          (retrieve_loop_forecast wx (us ++ a :: vs)).1
              = (retrieve_loop_forecast wx (us ++ vs)).1
          ∧ (retrieve_loop_forecast wx (us ++ a :: vs)).2
              = (retrieve_loop_forecast wx us).2 ++ (get_weather_forecast wx a).2
                ++ (retrieve_loop_forecast wx vs).2)
      ∧ (∀ cis b r, b ∈ cis → (get_weather_forecast wx b).1 = some r →
          jsonTruthy r = true → r ∈ (retrieve_loop_forecast wx cis).1)
      ∧ (∀ input : String, input ≠ "quit" → input ≠ "" →
          Step.save COORDINATES_FILE
              (Json.arr ((resolve_loop_forecast geo (userLocations input)).1.map locationToJson))
            ∈ batchTraceOf (main_iteration_forecast geo wx input)
          ∧ Step.save FORECAST_FILE
              (Json.arr (retrieve_loop_forecast wx
                (resolve_loop_forecast geo (userLocations input)).1).1)
            ∈ batchTraceOf (main_iteration_forecast geo wx input))) := by
  refine ⟨⟨?_, mem_resolve_loop_info geo, ?_, mem_retrieve_loop_info wx, ?_⟩,
          ?_, mem_resolve_loop_forecast geo, ?_, mem_retrieve_loop_forecast wx, ?_⟩
  · intro xs ys s hfail
    constructor
    · rw [resolve_loop_info_append, resolve_loop_info_append]
      simp [resolve_loop_info, hfail]
    · rw [resolve_loop_info_append]
      simp [resolve_loop_info, List.append_assoc]
  · intro us vs a hfail
    constructor
    · rw [retrieve_loop_info_append, retrieve_loop_info_append]
      simp [retrieve_loop_info, hfail]
    · rw [retrieve_loop_info_append]
      simp [retrieve_loop_info, List.append_assoc]
  · intro input h1 h2
    simp [main_iteration_info, h1, h2, batchTraceOf, save_json_steps]
  · intro xs ys s hfail
    constructor
    · rw [resolve_loop_forecast_append, resolve_loop_forecast_append]
      simp [resolve_loop_forecast, hfail]
    · rw [resolve_loop_forecast_append]
      simp [resolve_loop_forecast, List.append_assoc]
  · intro us vs a hfail
    constructor
    · rw [retrieve_loop_forecast_append, retrieve_loop_forecast_append]
      simp [retrieve_loop_forecast, hfail]
    · rw [retrieve_loop_forecast_append]
      simp [retrieve_loop_forecast, hfail, List.append_assoc]
  · intro input h1 h2
    simp [main_iteration_forecast, h1, h2, batchTraceOf, save_json_steps]

/-- C1 witness: a concrete three-city batch (`London` resolves and its
retrieval fails; `Nowhere` does not resolve; `Abuja` resolves and its
retrieval succeeds), every hypothesis discharged by computation. -/
theorem batch_failures_independent_witness :
    ((resolve_loop_info fixGeoMixed (["London"] ++ "Nowhere" :: ["Abuja"])).1
        = (resolve_loop_info fixGeoMixed (["London"] ++ ["Abuja"])).1
      ∧ (resolve_loop_info fixGeoMixed (["London"] ++ "Nowhere" :: ["Abuja"])).2
        = (resolve_loop_info fixGeoMixed ["London"]).2
          ++ (get_coordinates_info fixGeoMixed "Nowhere").2
          ++ (resolve_loop_info fixGeoMixed ["Abuja"]).2)
    ∧ fixLocL ∈ (resolve_loop_info fixGeoMixed ["London", "Nowhere", "Abuja"]).1
    ∧ ((retrieve_loop_info fixWxMixed ([] ++ fixLocL :: [fixLocN])).1
        = (retrieve_loop_info fixWxMixed ([] ++ [fixLocN])).1
      ∧ (retrieve_loop_info fixWxMixed ([] ++ fixLocL :: [fixLocN])).2
        = (retrieve_loop_info fixWxMixed []).2 ++ (get_weather_data fixWxMixed fixLocL).2
          ++ (retrieve_loop_info fixWxMixed [fixLocN]).2)
    ∧ fixWxRecord ∈ (retrieve_loop_info fixWxMixed [fixLocL, fixLocN]).1
    ∧ (Step.save COORDINATES_FILE
          (Json.arr ((resolve_loop_info fixGeoMixed (userLocations "London;Abuja")).1.map
            locationToJson))
        ∈ batchTraceOf (main_iteration_info fixGeoMixed fixWxMixed "London;Abuja")
      ∧ Step.save WEATHER_DATA_FILE
          (Json.arr (retrieve_loop_info fixWxMixed
            (resolve_loop_info fixGeoMixed (userLocations "London;Abuja")).1).1)
        ∈ batchTraceOf (main_iteration_info fixGeoMixed fixWxMixed "London;Abuja"))
    ∧ ((resolve_loop_forecast fixGeoMixed (["London"] ++ "Nowhere" :: ["Abuja"])).1
        = (resolve_loop_forecast fixGeoMixed (["London"] ++ ["Abuja"])).1
      ∧ (resolve_loop_forecast fixGeoMixed (["London"] ++ "Nowhere" :: ["Abuja"])).2
        = (resolve_loop_forecast fixGeoMixed ["London"]).2
          ++ (get_coordinates_forecast fixGeoMixed "Nowhere").2
          ++ (resolve_loop_forecast fixGeoMixed ["Abuja"]).2)
    ∧ fixLocL ∈ (resolve_loop_forecast fixGeoMixed ["London", "Nowhere", "Abuja"]).1
    ∧ ((retrieve_loop_forecast fixWxMixed ([] ++ fixLocL :: [fixLocN])).1
        = (retrieve_loop_forecast fixWxMixed ([] ++ [fixLocN])).1
      ∧ (retrieve_loop_forecast fixWxMixed ([] ++ fixLocL :: [fixLocN])).2
        = (retrieve_loop_forecast fixWxMixed []).2
          ++ (get_weather_forecast fixWxMixed fixLocL).2
          ++ (retrieve_loop_forecast fixWxMixed [fixLocN]).2)
    ∧ fixWxRecord ∈ (retrieve_loop_forecast fixWxMixed [fixLocL, fixLocN]).1
    ∧ (Step.save COORDINATES_FILE
          (Json.arr ((resolve_loop_forecast fixGeoMixed (userLocations "London;Abuja")).1.map
            locationToJson))
        ∈ batchTraceOf (main_iteration_forecast fixGeoMixed fixWxMixed "London;Abuja")
      ∧ Step.save FORECAST_FILE
          (Json.arr (retrieve_loop_forecast fixWxMixed
            (resolve_loop_forecast fixGeoMixed (userLocations "London;Abuja")).1).1)
        ∈ batchTraceOf (main_iteration_forecast fixGeoMixed fixWxMixed "London;Abuja")) := by
  obtain ⟨⟨i1, i2, i3, i4, i5⟩, f1, f2, f3, f4, f5⟩ :=
    batch_failures_independent fixGeoMixed fixWxMixed
  exact ⟨i1 ["London"] ["Abuja"] "Nowhere" (by decide),
         i2 ["London", "Nowhere", "Abuja"] "London" fixLocL (by decide) (by decide),
         i3 [] [fixLocN] fixLocL (by decide),
         i4 [fixLocL, fixLocN] fixLocN fixWxRecord (by decide) (by decide) (by decide),
         i5 "London;Abuja" (by decide) (by decide),
         f1 ["London"] ["Abuja"] "Nowhere" (by decide),
         f2 ["London", "Nowhere", "Abuja"] "London" fixLocL (by decide) (by decide),
         f3 [] [fixLocN] fixLocL (by decide),
         f4 [fixLocL, fixLocN] fixLocN fixWxRecord (by decide) (by decide) (by decide),
         f5 "London;Abuja" (by decide) (by decide)⟩

/-! ## C10: the forecast variant collects records it cannot plot -/

/-- C10 counterexample: a weather response that parses successfully to the
**empty** object `{}` (its `list` key therefore missing) is falsy in Python,
so `if forecast_data:` skips it: it is not appended to the collected
records, refuting "every weather response that parses successfully is
appended". -/
theorem forecast_falsy_record_skipped_cex :
    (get_weather_forecast fixWxEmptyObj fixLocL).1 = some (Json.obj [])
    ∧ Json.obj [] ∉ (retrieve_loop_forecast fixWxEmptyObj [fixLocL]).1 := by
  decide

/-- C10 amended: every **truthy** weather response that parses successfully
(e.g. any non-empty object) is collected even when its `list` field is
missing or empty — in which case its `plot_forecast` call renders nothing —
and the collected list is what the forecast-records artifact persists; a
falsy parse result such as `{}` is skipped like a failure. -/
theorem forecast_truthy_records_collected :
    (∀ (wx : Option Json × Option Json → WxOutcome) (cis : List Location)
        (ci : Location) (r : Json), ci ∈ cis →
        (get_weather_forecast wx ci).1 = some r → jsonTruthy r = true →
        r ∈ (retrieve_loop_forecast wx cis).1)
    ∧ (∀ (kvs : List (String × Json)) (city : String),
        (jsonGet (Json.obj kvs) "list" = none
          ∨ ∃ l, jsonGet (Json.obj kvs) "list" = some l ∧ jsonTruthy l = false) →
        (plot_forecast (Json.obj kvs) city).all (fun s => !isRenderStep s) = true)
    ∧ (∀ (geo : String → GeoOutcome) (wx : Option Json × Option Json → WxOutcome)
        (input : String), input ≠ "quit" → input ≠ "" →
        Step.save FORECAST_FILE
            (Json.arr (retrieve_loop_forecast wx
              (resolve_loop_forecast geo (userLocations input)).1).1)
          ∈ batchTraceOf (main_iteration_forecast geo wx input)) := by
  refine ⟨mem_retrieve_loop_forecast, ?_, ?_⟩
  · intro kvs city h
    rw [plot_forecast_no_list kvs city h]
    rfl
  · intro geo wx input h1 h2
    simp [main_iteration_forecast, h1, h2, batchTraceOf, save_json_steps]

/-- C10 witness: a truthy response without a `list` key is collected for a
concrete batch, contributes no rendering step, and the artifact save step
carries the collected list. -/
theorem forecast_truthy_records_collected_witness :
    Json.obj [("cod", Json.str "200")]
        ∈ (retrieve_loop_forecast fixWxNoList [fixLocL]).1
    ∧ (plot_forecast (Json.obj [("cod", Json.str "200")]) "London").all
        (fun s => !isRenderStep s) = true
    ∧ Step.save FORECAST_FILE
          (Json.arr (retrieve_loop_forecast fixWxNoList
            (resolve_loop_forecast fixGeoMixed (userLocations "London")).1).1)
        ∈ batchTraceOf (main_iteration_forecast fixGeoMixed fixWxNoList "London") :=
  ⟨forecast_truthy_records_collected.1 fixWxNoList [fixLocL] fixLocL _
      (by decide) (by decide) (by decide),
   forecast_truthy_records_collected.2.1 [("cod", Json.str "200")] "London"
      (Or.inl (by decide)),
   forecast_truthy_records_collected.2.2 fixGeoMixed fixWxNoList "London"
      (by decide) (by decide)⟩

/-! ## C8: `save_json` round trips through the dumped file

The lemma stack inverts the serializer piece by piece: decimal digits,
integer literals, string escapes (including `\uXXXX` and surrogate pairs),
whitespace/indentation, and finally the three mutually recursive readers by
induction on the fuel. -/

theorem decDigit_toNat (k : Nat) (h : k < 10) : (decDigit k).toNat = 48 + k :=
  toNat_ofNat_valid (48 + k) (Or.inl (by omega))

theorem isDigitCh_decDigit (k : Nat) (h : k < 10) : isDigitCh (decDigit k) = true := by
  simp only [isDigitCh, decDigit_toNat k h, Bool.and_eq_true, decide_eq_true_iff]
  omega

theorem natChars_shift (n : Nat) : ∀ acc : List Char,
    natChars n acc = natChars n [] ++ acc := by
  induction n using Nat.strongRecOn with
  | ind n ih =>
      intro acc
      by_cases h : n < 10
      · rw [natChars, if_pos h]
        conv_rhs => rw [natChars, if_pos h]
        rfl
      · rw [natChars, if_neg h, ih (n / 10) (Nat.div_lt_self (by omega) (by omega))]
        conv_rhs =>
          rw [natChars, if_neg h, ih (n / 10) (Nat.div_lt_self (by omega) (by omega))]
        simp

theorem natChars_split (n : Nat) :
    natChars n [] = (if n < 10 then [] else natChars (n / 10) [])
      ++ [decDigit (n % 10)] := by
  by_cases h : n < 10
  · rw [natChars, if_pos h, if_pos h]
    simp only [List.nil_append]
    rw [Nat.mod_eq_of_lt h]
  · rw [natChars, if_neg h, if_neg h, natChars_shift]

theorem natChars_ne_nil (n : Nat) : natChars n [] ≠ [] := by
  rw [natChars_split]
  simp

theorem natChars_all_digits (n : Nat) : ∀ c ∈ natChars n [], isDigitCh c = true := by
  induction n using Nat.strongRecOn with
  | ind n ih =>
      intro c hc
      rw [natChars_split] at hc
      rcases List.mem_append.mp hc with hl | hr
      · by_cases h : n < 10
        · simp [h] at hl
        · exact ih (n / 10) (Nat.div_lt_self (by omega) (by omega)) c (by simpa [h] using hl)
      · rw [List.mem_singleton] at hr
        subst hr
        exact isDigitCh_decDigit _ (Nat.mod_lt _ (by omega))

theorem digitRunVal_natChars (n : Nat) : digitRunVal (natChars n []) = n := by
  induction n using Nat.strongRecOn with
  | ind n ih =>
      rw [natChars_split]
      unfold digitRunVal
      rw [List.foldl_append]
      by_cases h : n < 10
      · simp only [if_pos h, List.foldl_nil, List.foldl_cons]
        rw [decDigit_toNat _ (Nat.mod_lt _ (by omega))]
        omega
      · simp only [if_neg h, List.foldl_cons, List.foldl_nil]
        have := ih (n / 10) (Nat.div_lt_self (by omega) (by omega))
        unfold digitRunVal at this
        rw [this, decDigit_toNat _ (Nat.mod_lt _ (by omega))]
        omega

theorem takeDigitRun_halt {cs : List Char} (h : intDelim cs = true) :
    takeDigitRun cs = ([], cs) := by
  cases cs with
  | nil => rfl
  | cons c t =>
      simp only [intDelim, Bool.not_eq_true', Bool.or_eq_false_iff] at h
      rw [takeDigitRun, if_neg (by simp [h.1.1.1])]

theorem takeDigitRun_run (ds : List Char) (hds : ∀ c ∈ ds, isDigitCh c = true)
    (rest : List Char) (hrest : takeDigitRun rest = ([], rest)) :
    takeDigitRun (ds ++ rest) = (ds, rest) := by
  induction ds with
  | nil => simpa using hrest
  | cons c t ih =>
      have hc : isDigitCh c = true := hds c (List.mem_cons_self _ _)
      rw [List.cons_append, takeDigitRun, if_pos (by simp [hc]),
          ih (fun x hx => hds x (List.mem_cons_of_mem _ hx))]

theorem natChars_first (n : Nat) :
    ∃ c t, natChars n [] = c :: t ∧ isDigitCh c = true := by
  cases h : natChars n [] with
  | nil => exact absurd h (natChars_ne_nil n)
  | cons c t =>
      exact ⟨c, t, rfl, natChars_all_digits n c (h ▸ List.mem_cons_self _ _)⟩

theorem digit_char_facts {c : Char} (h : isDigitCh c = true) :
    jsonWs c = false ∧ c ≠ '-' ∧ c ≠ '.' ∧ c ≠ 'e' ∧ c ≠ 'E' ∧ c ≠ 'n' ∧ c ≠ 't'
    ∧ c ≠ 'f' ∧ c ≠ '"' ∧ c ≠ '[' ∧ c ≠ '{' ∧ c ≠ ']' ∧ c ≠ '}' ∧ c ≠ ',' := by
  have hb : 48 ≤ c.toNat ∧ c.toNat ≤ 57 := by
    simpa [isDigitCh, Bool.and_eq_true, decide_eq_true_iff] using h
  refine ⟨?_, ?_, ?_, ?_, ?_, ?_, ?_, ?_, ?_, ?_, ?_, ?_, ?_, ?_⟩
  · simp only [jsonWs, Bool.or_eq_false_iff, beq_eq_false_iff_ne, ne_eq]
    omega
  all_goals (intro he; rw [he] at h; exact absurd h (by decide))

theorem intDelim_first {c : Char} {t : List Char} (h : intDelim (c :: t) = true) :
    isDigitCh c = false ∧ c ≠ '.' ∧ c ≠ 'e' ∧ c ≠ 'E' := by
  simp only [intDelim, Bool.not_eq_true', Bool.or_eq_false_iff,
             beq_eq_false_iff_ne] at h
  exact ⟨h.1.1.1, h.1.1.2, h.1.2, h.2⟩

theorem parseDigitsTok_natChars (neg : Bool) (n : Nat) (rest : List Char)
    (hr : intDelim rest = true) :
    parseDigitsTok neg (natChars n [] ++ rest)
      = some (if neg then -(n : Int) else (n : Int), rest) := by
  obtain ⟨c0, t0, h0, _⟩ := natChars_first n
  have hrun : takeDigitRun (natChars n [] ++ rest) = (natChars n [], rest) :=
    takeDigitRun_run _ (natChars_all_digits _) _ (takeDigitRun_halt hr)
  rw [parseDigitsTok]
  rw [hrun, h0]
  cases rest with
  | nil => simp [← h0, digitRunVal_natChars]
  | cons c t =>
      obtain ⟨hd, hdot, he, hE⟩ := intDelim_first hr
      simp [hdot, he, hE, ← h0, digitRunVal_natChars]

theorem parseIntTok_not_minus (c0 : Char) (t : List Char) (h : c0 ≠ '-') :
    parseIntTok (c0 :: t) = parseDigitsTok false (c0 :: t) := by
  rw [parseIntTok.eq_def]
  split
  · rename_i r heq
    injection heq with h1 _
    exact absurd h1 h
  · rfl

theorem parseIntTok_intChars (i : Int) (rest : List Char)
    (hr : intDelim rest = true) :
    parseIntTok (intChars i ++ rest) = some (i, rest) := by
  by_cases hneg : i < 0
  · have harg : intChars i ++ rest = '-' :: (natChars i.natAbs [] ++ rest) := by
      simp [intChars, hneg]
    rw [harg,
        show parseIntTok ('-' :: (natChars i.natAbs [] ++ rest))
          = parseDigitsTok true (natChars i.natAbs [] ++ rest) from rfl,
        parseDigitsTok_natChars true i.natAbs rest hr]
    simp only [if_true, Option.some.injEq, Prod.mk.injEq, and_true]
    omega
  · obtain ⟨c0, t0, h0, hc0⟩ := natChars_first i.natAbs
    obtain ⟨hws, hminus, _⟩ := digit_char_facts hc0
    have harg : intChars i ++ rest = c0 :: (t0 ++ rest) := by
      simp [intChars, hneg, h0]
    rw [harg, parseIntTok_not_minus c0 _ hminus, ← harg,
        show intChars i ++ rest = natChars i.natAbs [] ++ rest from by
          simp [intChars, hneg],
        parseDigitsTok_natChars false i.natAbs rest hr]
    simp only [Option.some.injEq, Prod.mk.injEq, and_true, if_neg (by simp : ¬false = true)]
    omega

theorem hexVal_hexDigit (k : Nat) (h : k < 16) : hexVal (hexDigit k) = some k := by
  by_cases hk : k < 10
  · have ht : (hexDigit k).toNat = 48 + k := by
      rw [hexDigit, if_pos hk]
      exact toNat_ofNat_valid _ (Or.inl (by omega))
    rw [hexVal, ht, if_pos (by omega)]
    simp only [Option.some.injEq]
    omega
  · have ht : (hexDigit k).toNat = 87 + k := by
      rw [hexDigit, if_neg hk]
      exact toNat_ofNat_valid _ (Or.inl (by omega))
    rw [hexVal, ht, if_neg (by omega), if_pos (by omega)]
    simp only [Option.some.injEq]
    omega

theorem hex4Val_scalar (n : Nat) (h : n < 0x10000) :
    hex4Val (hexDigit (n / 4096 % 16)) (hexDigit (n / 256 % 16))
        (hexDigit (n / 16 % 16)) (hexDigit (n % 16)) = some n := by
  have m16 : ∀ k : Nat, k % 16 < 16 := fun k => Nat.mod_lt _ (by omega)
  rw [hex4Val]
  rw [hexVal_hexDigit _ (m16 _), hexVal_hexDigit _ (m16 _),
      hexVal_hexDigit _ (m16 _), hexVal_hexDigit _ (m16 _)]
  simp only [Option.bind_eq_bind, Option.some_bind, Option.some.injEq]
  omega

theorem char_valid_range (c : Char) :
    c.toNat < 0xd800 ∨ (0xe000 ≤ c.toNat ∧ c.toNat < 0x110000) := by
  have h : c.val.toNat < 0xd800 ∨ (0xdfff < c.val.toNat ∧ c.val.toNat < 0x110000) :=
    c.valid
  have he : c.toNat = c.val.toNat := rfl
  rw [he]
  omega

theorem uEscape_explode (n : Nat) (x : List Char) :
    uEscape n ++ x
      = '\\' :: 'u' :: hexDigit (n / 4096 % 16) :: hexDigit (n / 256 % 16)
          :: hexDigit (n / 16 % 16) :: hexDigit (n % 16) :: x := rfl

theorem parseStringRest_cons (acc : List Char) (c : Char) (rest : List Char) :
    parseStringRest acc (c :: rest)
      = if c = '"' then some (⟨acc.reverse⟩, rest)
        else if c = '\\' then parseEscape acc rest
        else if c.toNat < 0x20 then none
        else parseStringRest (c :: acc) rest := by
  rw [parseStringRest]

theorem parseEscape_cons (acc : List Char) (e : Char) (rest : List Char) :
    parseEscape acc (e :: rest)
      = if e = 'u' then parseUDigits acc rest
        else
          (match unescapeChar e with
           | some ch => parseStringRest (ch :: acc) rest
           | none => none) := by
  rw [parseEscape]

theorem parseStringRest_twoChar (acc rest : List Char) (e ch : Char)
    (hne : e ≠ 'u') (hu : unescapeChar e = some ch) :
    parseStringRest acc ('\\' :: e :: rest) = parseStringRest (ch :: acc) rest := by
  rw [parseStringRest_cons, if_neg (by decide), if_pos rfl, parseEscape_cons,
      if_neg hne, hu]

theorem parseAfterU_scalar (acc : List Char) (v : Nat) (cs : List Char)
    (hval : v < 0xd800 ∨ 0xe000 ≤ v) :
    parseAfterU acc (some v) cs = parseStringRest (Char.ofNat v :: acc) cs := by
  rw [parseAfterU]
  exact if_pos hval

theorem parseStringRest_uEscape_scalar (v : Nat) (acc rest : List Char)
    (hlt : v < 0x10000) (hval : v < 0xd800 ∨ 0xe000 ≤ v) :
    parseStringRest acc (uEscape v ++ rest)
      = parseStringRest (Char.ofNat v :: acc) rest := by
  rw [uEscape_explode, parseStringRest_cons, if_neg (by decide), if_pos rfl,
      parseEscape_cons, if_pos rfl, parseUDigits, hex4Val_scalar v hlt,
      parseAfterU_scalar _ _ _ hval]

theorem parseStringRest_escape (c : Char) (acc rest : List Char) :
    parseStringRest acc (escapeChar c ++ rest) = parseStringRest (c :: acc) rest := by
  by_cases h1 : c = '"'
  · subst h1
    rw [show escapeChar '"' ++ rest = '\\' :: '"' :: rest from rfl]
    exact parseStringRest_twoChar acc rest '"' '"' (by decide) rfl
  by_cases h2 : c = '\\'
  · subst h2
    rw [show escapeChar '\\' ++ rest = '\\' :: '\\' :: rest from rfl]
    exact parseStringRest_twoChar acc rest '\\' '\\' (by decide) rfl
  by_cases h3 : c = '\n'
  · subst h3
    rw [show escapeChar '\n' ++ rest = '\\' :: 'n' :: rest from rfl]
    exact parseStringRest_twoChar acc rest 'n' '\n' (by decide) rfl
  by_cases h4 : c = '\t'
  · subst h4
    rw [show escapeChar '\t' ++ rest = '\\' :: 't' :: rest from rfl]
    exact parseStringRest_twoChar acc rest 't' '\t' (by decide) rfl
  by_cases h5 : c = '\r'
  · subst h5
    rw [show escapeChar '\r' ++ rest = '\\' :: 'r' :: rest from rfl]
    exact parseStringRest_twoChar acc rest 'r' '\r' (by decide) rfl
  by_cases h6 : c.toNat = 8
  · have hesc : escapeChar c = ['\\', 'b'] := by
      rw [escapeChar]
      rw [if_neg (by simp [h1]), if_neg (by simp [h2]), if_neg (by simp [h3]),
          if_neg (by simp [h4]), if_neg (by simp [h5]), if_pos (by simp [h6])]
    rw [hesc, show (['\\', 'b'] : List Char) ++ rest = '\\' :: 'b' :: rest from rfl,
        parseStringRest_twoChar acc rest 'b' (Char.ofNat 8) (by decide) rfl,
        show Char.ofNat 8 = c from by rw [← h6]; exact Char.ofNat_toNat c]
  by_cases h7 : c.toNat = 12
  · have hesc : escapeChar c = ['\\', 'f'] := by
      rw [escapeChar]
      rw [if_neg (by simp [h1]), if_neg (by simp [h2]), if_neg (by simp [h3]),
          if_neg (by simp [h4]), if_neg (by simp [h5]), if_neg (by simp [h6]),
          if_pos (by simp [h7])]
    rw [hesc, show (['\\', 'f'] : List Char) ++ rest = '\\' :: 'f' :: rest from rfl,
        parseStringRest_twoChar acc rest 'f' (Char.ofNat 12) (by decide) rfl,
        show Char.ofNat 12 = c from by rw [← h7]; exact Char.ofNat_toNat c]
  by_cases h8 : c.toNat < 0x20
  · have hesc : escapeChar c = uEscape c.toNat := by
      rw [escapeChar]
      rw [if_neg (by simp [h1]), if_neg (by simp [h2]), if_neg (by simp [h3]),
          if_neg (by simp [h4]), if_neg (by simp [h5]), if_neg (by simp [h6]),
          if_neg (by simp [h7]), if_pos h8]
    rw [hesc, parseStringRest_uEscape_scalar _ _ _ (by omega) (Or.inl (by omega)),
        Char.ofNat_toNat]
  by_cases h9 : c.toNat < 0x7f
  · have hesc : escapeChar c = [c] := by
      rw [escapeChar]
      rw [if_neg (by simp [h1]), if_neg (by simp [h2]), if_neg (by simp [h3]),
          if_neg (by simp [h4]), if_neg (by simp [h5]), if_neg (by simp [h6]),
          if_neg (by simp [h7]), if_neg h8, if_pos h9]
    rw [hesc, List.singleton_append, parseStringRest_cons,
        if_neg h1, if_neg h2, if_neg h8]
  by_cases h10 : c.toNat < 0x10000
  · have hesc : escapeChar c = uEscape c.toNat := by
      rw [escapeChar]
      rw [if_neg (by simp [h1]), if_neg (by simp [h2]), if_neg (by simp [h3]),
          if_neg (by simp [h4]), if_neg (by simp [h5]), if_neg (by simp [h6]),
          if_neg (by simp [h7]), if_neg h8, if_neg h9, if_pos h10]
    have hval : c.toNat < 0xd800 ∨ 0xe000 ≤ c.toNat := by
      rcases char_valid_range c with h | h
      · exact Or.inl h
      · exact Or.inr h.1
    rw [hesc, parseStringRest_uEscape_scalar _ _ _ h10 hval, Char.ofNat_toNat]
  · have hesc : escapeChar c
        = uEscape (0xd800 + (c.toNat - 0x10000) / 0x400)
          ++ uEscape (0xdc00 + (c.toNat - 0x10000) % 0x400) := by
      rw [escapeChar]
      rw [if_neg (by simp [h1]), if_neg (by simp [h2]), if_neg (by simp [h3]),
          if_neg (by simp [h4]), if_neg (by simp [h5]), if_neg (by simp [h6]),
          if_neg (by simp [h7]), if_neg h8, if_neg h9, if_neg h10]
    have hmax : c.toNat < 0x110000 := by
      rcases char_valid_range c with h | h
      · omega
      · exact h.2
    rw [hesc, List.append_assoc,
        uEscape_explode (0xd800 + (c.toNat - 0x10000) / 0x400),
        parseStringRest_cons, if_neg (by decide), if_pos rfl, parseEscape_cons,
        if_pos rfl, parseUDigits, hex4Val_scalar _ (by omega), parseAfterU]
    rw [if_neg (by omega),
        if_pos (by omega : 0xd800 + (c.toNat - 0x10000) / 0x400 < 0xdc00)]
    rw [uEscape_explode (0xdc00 + (c.toNat - 0x10000) % 0x400), parseHighSur,
        hex4Val_scalar _ (by omega), parseLowSur]
    rw [if_pos (by omega : 0xdc00 ≤ 0xdc00 + (c.toNat - 0x10000) % 0x400
          ∧ 0xdc00 + (c.toNat - 0x10000) % 0x400 < 0xe000)]
    have hc : surrogateChar (0xd800 + (c.toNat - 0x10000) / 0x400)
        (0xdc00 + (c.toNat - 0x10000) % 0x400) = c := by
      rw [surrogateChar]
      rw [show 0x10000 + (0xd800 + (c.toNat - 0x10000) / 0x400 - 0xd800) * 0x400
            + (0xdc00 + (c.toNat - 0x10000) % 0x400 - 0xdc00) = c.toNat from by omega]
      exact Char.ofNat_toNat c
    rw [hc]

theorem parseStringRest_body (cs : List Char) : ∀ (acc rest : List Char),
    parseStringRest acc ((cs.map escapeChar).flatten ++ '"' :: rest)
      = some (⟨acc.reverse ++ cs⟩, rest) := by
  induction cs with
  | nil =>
      intro acc rest
      simp only [List.map_nil, List.flatten_nil, List.nil_append]
      rw [parseStringRest_cons, if_pos rfl]
      simp
  | cons c t ih =>
      intro acc rest
      rw [List.map_cons, List.flatten_cons, List.append_assoc,
          parseStringRest_escape, ih]
      simp

theorem parseStringRest_dumpString (s : String) (rest : List Char) :
    parseStringRest [] ((s.data.map escapeChar).flatten ++ '"' :: rest)
      = some (s, rest) := by
  rw [parseStringRest_body]
  simp [mk_data_eq]

theorem skipJsonWs_cons_ws (c : Char) (h : jsonWs c = true) (x : List Char) :
    skipJsonWs (c :: x) = skipJsonWs x := by
  rw [skipJsonWs, if_pos h]

theorem skipJsonWs_cons_not (c : Char) (h : jsonWs c = false) (x : List Char) :
    skipJsonWs (c :: x) = c :: x := by
  rw [skipJsonWs, if_neg (by simp [h])]

theorem skipJsonWs_pad (n : Nat) (x : List Char) :
    skipJsonWs (pad n ++ x) = skipJsonWs x := by
  induction n with
  | zero => rfl
  | succ m ih =>
      rw [pad, List.replicate_succ, List.cons_append,
          skipJsonWs_cons_ws ' ' (by decide)]
      exact ih

theorem skipJsonWs_idem (x : List Char) : skipJsonWs (skipJsonWs x) = skipJsonWs x := by
  induction x with
  | nil => rfl
  | cons c t ih =>
      by_cases h : jsonWs c = true
      · rw [skipJsonWs_cons_ws c h]
        exact ih
      · rw [skipJsonWs_cons_not c (by simpa using h), skipJsonWs_cons_not c (by simpa using h)]

theorem parseVal_congr_skip (f : Nat) (x y : List Char)
    (h : skipJsonWs x = skipJsonWs y) : parseVal f x = parseVal f y := by
  cases f with
  | zero => rfl
  | succ f =>
      simp only [parseVal]
      rw [h]

theorem parseItems_congr_skip (f : Nat) (x y : List Char)
    (h : skipJsonWs x = skipJsonWs y) : parseItems f x = parseItems f y := by
  cases f with
  | zero => rfl
  | succ f =>
      simp only [parseItems]
      rw [parseVal_congr_skip f x y h]

theorem parseMembers_congr_skip (f : Nat) (x y : List Char)
    (h : skipJsonWs x = skipJsonWs y) : parseMembers f x = parseMembers f y := by
  cases f with
  | zero => rfl
  | succ f =>
      simp only [parseMembers]
      rw [h]

theorem dumpVal_first (ind : Nat) (v : Json) :
    ∃ c t, dumpVal ind v = c :: t ∧ jsonWs c = false ∧ c ≠ ']' ∧ c ≠ '}' := by
  cases v with
  | null =>
      refine ⟨'n', ['u', 'l', 'l'], ?_, by decide, by decide, by decide⟩
      rw [dumpVal]
  | bool b =>
      cases b with
      | true =>
          refine ⟨'t', ['r', 'u', 'e'], ?_, by decide, by decide, by decide⟩
          rw [dumpVal]
      | false =>
          refine ⟨'f', ['a', 'l', 's', 'e'], ?_, by decide, by decide, by decide⟩
          rw [dumpVal]
  | num i =>
      by_cases hneg : i < 0
      · refine ⟨'-', natChars i.natAbs [], ?_, by decide, by decide, by decide⟩
        rw [dumpVal]
        simp [intChars, hneg]
      · obtain ⟨c0, t0, h0, hc0⟩ := natChars_first i.natAbs
        obtain ⟨hws, _, _, _, _, _, _, _, _, _, _, hrb, hcb, _⟩ := digit_char_facts hc0
        refine ⟨c0, t0, ?_, hws, hrb, hcb⟩
        rw [dumpVal]
        simp [intChars, hneg, h0]
  | str s =>
      refine ⟨'"', (s.data.map escapeChar).flatten ++ ['"'], ?_,
              by decide, by decide, by decide⟩
      rw [dumpVal, dumpString]
  | arr xs =>
      cases xs with
      | nil =>
          refine ⟨'[', [']'], ?_, by decide, by decide, by decide⟩
          rw [dumpVal]
      | cons x xs =>
          refine ⟨'[', '\n' :: (dumpItems (ind + 4) x xs ++ '\n' :: (pad ind ++ [']'])),
                  ?_, by decide, by decide, by decide⟩
          rw [dumpVal]
  | obj kvs =>
      cases kvs with
      | nil =>
          refine ⟨'{', ['}'], ?_, by decide, by decide, by decide⟩
          rw [dumpVal]
      | cons kv kvs =>
          obtain ⟨k, v⟩ := kv
          refine ⟨'{', '\n' :: (dumpMembers (ind + 4) k v kvs ++ '\n' :: (pad ind ++ ['}'])),
                  ?_, by decide, by decide, by decide⟩
          rw [dumpVal]

theorem skipJsonWs_dumpVal (ind : Nat) (v : Json) (x : List Char) :
    skipJsonWs (dumpVal ind v ++ x) = dumpVal ind v ++ x := by
  obtain ⟨c, t, hv, hws, _, _⟩ := dumpVal_first ind v
  rw [hv, List.cons_append, skipJsonWs_cons_not c hws]

theorem dumpVal_length_pos (ind : Nat) (v : Json) : 1 ≤ (dumpVal ind v).length := by
  obtain ⟨c, t, hv, _, _, _⟩ := dumpVal_first ind v
  rw [hv]
  simp

theorem dumpItems_decomp (ind : Nat) (x : Json) (xs : List Json) :
    ∃ R, dumpItems ind x xs = pad ind ++ (dumpVal ind x ++ R) := by
  cases xs with
  | nil => exact ⟨[], by simp [dumpItems]⟩
  | cons y ys =>
      exact ⟨',' :: '\n' :: dumpItems ind y ys, by simp [dumpItems]⟩

theorem parseVal_quote (f : Nat) (z : List Char) :
    parseVal (f + 1) ('"' :: z)
      = (match parseStringRest [] z with
         | some (s, r1) => some (.str s, r1)
         | none => none) := rfl

theorem parseVal_lbracket (f : Nat) (z : List Char) :
    parseVal (f + 1) ('[' :: z)
      = (match skipJsonWs z with
         | ']' :: r1 => some (.arr [], r1)
         | r1 =>
            match parseItems f r1 with
            | some (xs, r2) => some (.arr xs, r2)
            | none => none) := rfl

theorem parseVal_lbrace (f : Nat) (z : List Char) :
    parseVal (f + 1) ('{' :: z)
      = (match skipJsonWs z with
         | '}' :: r1 => some (.obj [], r1)
         | r1 =>
            match parseMembers f r1 with
            | some (ms, r2) => some (.obj ms, r2)
            | none => none) := rfl

theorem parseItems_succ (f : Nat) (cs : List Char) :
    parseItems (f + 1) cs
      = (match parseVal f cs with
         | none => none
         | some (v, r) =>
            match skipJsonWs r with
            | ',' :: r1 =>
                (match parseItems f r1 with
                 | some (vs, r2) => some (v :: vs, r2)
                 | none => none)
            | ']' :: r1 => some ([v], r1)
            | _ => none) := rfl

theorem parseMembers_succ (f : Nat) (cs : List Char) :
    parseMembers (f + 1) cs
      = (match skipJsonWs cs with
         | '"' :: r =>
            (match parseStringRest [] r with
             | none => none
             | some (k, r1) =>
                match skipJsonWs r1 with
                | ':' :: r2 =>
                    (match parseVal f r2 with
                     | none => none
                     | some (v, r3) =>
                        match skipJsonWs r3 with
                        | ',' :: r4 =>
                            (match parseMembers f r4 with
                             | some (ms, r5) => some ((k, v) :: ms, r5)
                             | none => none)
                        | '}' :: r4 => some ([(k, v)], r4)
                        | _ => none)
                | _ => none)
         | _ => none) := rfl

theorem parseVal_lbracket_items (f : Nat) (z : List Char) (c : Char) (w : List Char)
    (hz : skipJsonWs z = c :: w) (hc : c ≠ ']') :
    parseVal (f + 1) ('[' :: z)
      = (match parseItems f (c :: w) with
         | some (xs, r2) => some (.arr xs, r2)
         | none => none) := by
  rw [parseVal_lbracket, hz]
  split
  · rename_i r1 heq
    injection heq with h1 _
    exact absurd h1 hc
  · rfl

theorem parseVal_int_branch (f : Nat) (c0 : Char) (t : List Char)
    (hws : jsonWs c0 = false) (hn : c0 ≠ 'n') (ht : c0 ≠ 't') (hf : c0 ≠ 'f')
    (hq : c0 ≠ '"') (hlb : c0 ≠ '[') (hlc : c0 ≠ '{')
    (hg : (c0 == '-' || isDigitCh c0) = true) :
    parseVal (f + 1) (c0 :: t)
      = (match parseIntTok (c0 :: t) with
         | some (i, r1) => some (.num i, r1)
         | none => none) := by
  simp only [parseVal]
  rw [skipJsonWs_cons_not c0 hws]
  split
  · rename_i heq
    injection heq with h1 _
    exact absurd h1 hn
  · rename_i heq
    injection heq with h1 _
    exact absurd h1 ht
  · rename_i heq
    injection heq with h1 _
    exact absurd h1 hf
  · rename_i r heq
    injection heq with h1 _
    exact absurd h1 hq
  · rename_i r heq
    injection heq with h1 _
    exact absurd h1 hlb
  · rename_i r heq
    injection heq with h1 _
    exact absurd h1 hlc
  · rename_i c1 r heq
    injection heq with h1 h2
    subst h1
    subst h2
    rw [if_pos hg]
  · rename_i heq
    cases heq

theorem dumpMembers_head (ind : Nat) (k : String) (v : Json)
    (ls : List (String × Json)) :
    ∃ R, dumpMembers ind k v ls = pad ind ++ ('"' :: R) := by
  cases ls with
  | nil =>
      refine ⟨(k.data.map escapeChar).flatten ++ '"' :: (':' :: ' ' :: dumpVal ind v), ?_⟩
      rw [dumpMembers, dumpString]
      simp
  | cons lw ls2 =>
      obtain ⟨l, w⟩ := lw
      refine ⟨(k.data.map escapeChar).flatten ++ '"' :: (':' :: ' ' :: (dumpVal ind v
          ++ ',' :: '\n' :: dumpMembers ind l w ls2)), ?_⟩
      rw [dumpMembers, dumpString]
      simp

theorem parseVal_lbrace_members (f : Nat) (z : List Char) (c : Char) (w : List Char)
    (hz : skipJsonWs z = c :: w) (hc : c ≠ '}') :
    parseVal (f + 1) ('{' :: z)
      = (match parseMembers f (c :: w) with
         | some (ms, r2) => some (.obj ms, r2)
         | none => none) := by
  rw [parseVal_lbrace, hz]
  split
  · rename_i r1 heq
    injection heq with h1 _
    exact absurd h1 hc
  · rfl

theorem rt_fuel : ∀ f : Nat,
    (∀ (v : Json) (ind : Nat) (rest : List Char),
        (dumpVal ind v).length < f → intDelim rest = true →
        parseVal f (dumpVal ind v ++ rest) = some (v, rest))
    ∧ (∀ (x : Json) (xs : List Json) (ind indc : Nat) (rest : List Char),
        (dumpItems ind x xs).length + 1 < f →
        parseItems f (dumpItems ind x xs ++ '\n' :: (pad indc ++ ']' :: rest))
          = some (x :: xs, rest))
    ∧ (∀ (k : String) (v : Json) (ls : List (String × Json)) (ind indc : Nat)
        (rest : List Char),
        (dumpMembers ind k v ls).length + 1 < f →
        parseMembers f (dumpMembers ind k v ls ++ '\n' :: (pad indc ++ '}' :: rest))
          = some ((k, v) :: ls, rest)) := by
  intro f
  induction f with
  | zero =>
      refine ⟨?_, ?_, ?_⟩ <;> (intros; omega)
  | succ f ih =>
      obtain ⟨ihV, ihI, ihM⟩ := ih
      refine ⟨?_, ?_, ?_⟩
      · intro v ind rest hlen hdelim
        cases v with
        | null =>
            rw [dumpVal]
            rfl
        | bool b =>
            cases b with
            | true =>
                rw [dumpVal]
                rfl
            | false =>
                rw [dumpVal]
                rfl
        | num i =>
            rw [dumpVal]
            by_cases hneg : i < 0
            · have harg : intChars i ++ rest = '-' :: (natChars i.natAbs [] ++ rest) := by
                simp [intChars, hneg]
              rw [harg, parseVal_int_branch f '-' _ (by decide) (by decide) (by decide)
                    (by decide) (by decide) (by decide) (by decide) (by decide),
                  ← harg, parseIntTok_intChars i rest hdelim]
            · obtain ⟨c0, t0, h0, hc0⟩ := natChars_first i.natAbs
              obtain ⟨hws, hm2, _, _, _, hn2, ht2, hf2, hq2, hlb2, hlc2, _, _, _⟩ :=
                digit_char_facts hc0
              have harg : intChars i ++ rest = c0 :: (t0 ++ rest) := by
                simp [intChars, hneg, h0]
              rw [harg, parseVal_int_branch f c0 _ hws hn2 ht2 hf2 hq2 hlb2 hlc2
                    (by simp [hc0]),
                  ← harg, parseIntTok_intChars i rest hdelim]
        | str s =>
            rw [dumpVal]
            have harg : dumpString s ++ rest
                = '"' :: ((s.data.map escapeChar).flatten ++ '"' :: rest) := by
              rw [dumpString]
              simp
            rw [harg, parseVal_quote, parseStringRest_dumpString]
        | arr xs =>
            cases xs with
            | nil =>
                rw [dumpVal]
                rfl
            | cons x xs =>
                rw [dumpVal]
                have hlenx : (dumpVal ind (.arr (x :: xs))).length
                    = (dumpItems (ind + 4) x xs).length + ind + 4 := by
                  rw [dumpVal]
                  simp [pad]
                  omega
                obtain ⟨R, hI⟩ := dumpItems_decomp (ind + 4) x xs
                obtain ⟨c, tv, hxv, hcws, hcrb, _⟩ := dumpVal_first (ind + 4) x
                have harg : ('[' :: '\n' ::
                      (dumpItems (ind + 4) x xs ++ '\n' :: (pad ind ++ [']']))) ++ rest
                    = '[' :: '\n' ::
                      (dumpItems (ind + 4) x xs ++ '\n' :: (pad ind ++ ']' :: rest)) := by
                  simp
                rw [harg]
                have hskip : skipJsonWs ('\n' ::
                      (dumpItems (ind + 4) x xs ++ '\n' :: (pad ind ++ ']' :: rest)))
                    = c :: (tv ++ (R ++ '\n' :: (pad ind ++ ']' :: rest))) := by
                  rw [skipJsonWs_cons_ws '\n' (by decide), hI, List.append_assoc,
                      skipJsonWs_pad, List.append_assoc, hxv, List.cons_append,
                      skipJsonWs_cons_not c hcws]
                rw [parseVal_lbracket_items f _ c _ hskip hcrb]
                have hcongr : skipJsonWs (c :: (tv ++ (R ++ '\n' :: (pad ind ++ ']' :: rest))))
                    = skipJsonWs (dumpItems (ind + 4) x xs
                        ++ '\n' :: (pad ind ++ ']' :: rest)) := by
                  rw [← hskip, skipJsonWs_idem, skipJsonWs_cons_ws '\n' (by decide)]
                rw [parseItems_congr_skip f _ _ hcongr,
                    ihI x xs (ind + 4) ind rest (by omega)]
        | obj kvs =>
            cases kvs with
            | nil =>
                rw [dumpVal]
                rfl
            | cons kv kvs =>
                obtain ⟨k, v⟩ := kv
                rw [dumpVal]
                have hlenx : (dumpVal ind (.obj ((k, v) :: kvs))).length
                    = (dumpMembers (ind + 4) k v kvs).length + ind + 4 := by
                  rw [dumpVal]
                  simp [pad]
                  omega
                obtain ⟨R, hMh⟩ := dumpMembers_head (ind + 4) k v kvs
                have harg : ('{' :: '\n' ::
                      (dumpMembers (ind + 4) k v kvs ++ '\n' :: (pad ind ++ ['}']))) ++ rest
                    = '{' :: '\n' ::
                      (dumpMembers (ind + 4) k v kvs ++ '\n' :: (pad ind ++ '}' :: rest)) := by
                  simp
                rw [harg]
                have hskip : skipJsonWs ('\n' ::
                      (dumpMembers (ind + 4) k v kvs ++ '\n' :: (pad ind ++ '}' :: rest)))
                    = '"' :: (R ++ '\n' :: (pad ind ++ '}' :: rest)) := by
                  rw [skipJsonWs_cons_ws '\n' (by decide), hMh, List.append_assoc,
                      skipJsonWs_pad, List.cons_append,
                      skipJsonWs_cons_not '"' (by decide)]
                rw [parseVal_lbrace_members f _ '"' _ hskip (by decide)]
                have hcongr : skipJsonWs ('"' :: (R ++ '\n' :: (pad ind ++ '}' :: rest)))
                    = skipJsonWs (dumpMembers (ind + 4) k v kvs
                        ++ '\n' :: (pad ind ++ '}' :: rest)) := by
                  rw [← hskip, skipJsonWs_idem, skipJsonWs_cons_ws '\n' (by decide)]
                rw [parseMembers_congr_skip f _ _ hcongr,
                    ihM k v kvs (ind + 4) ind rest (by omega)]
      · intro x xs ind indc rest hlen
        cases xs with
        | nil =>
            have hI : dumpItems ind x [] = pad ind ++ dumpVal ind x := by
              rw [dumpItems]
            have hlenI : (dumpItems ind x []).length = ind + (dumpVal ind x).length := by
              rw [hI]
              simp [pad]
            rw [parseItems_succ]
            have h1 : parseVal f (dumpItems ind x [] ++ '\n' :: (pad indc ++ ']' :: rest))
                = some (x, '\n' :: (pad indc ++ ']' :: rest)) := by
              rw [parseVal_congr_skip f _
                    (dumpVal ind x ++ '\n' :: (pad indc ++ ']' :: rest))
                    (by rw [hI, List.append_assoc, skipJsonWs_pad]),
                  ihV x ind ('\n' :: (pad indc ++ ']' :: rest)) (by omega) rfl]
            rw [h1]
            have h2 : skipJsonWs ('\n' :: (pad indc ++ ']' :: rest)) = ']' :: rest := by
              rw [skipJsonWs_cons_ws '\n' (by decide), skipJsonWs_pad,
                  skipJsonWs_cons_not ']' (by decide)]
            simp only [h2]
        | cons y ys =>
            have hI : dumpItems ind x (y :: ys)
                = pad ind ++ (dumpVal ind x ++ ',' :: '\n' :: dumpItems ind y ys) := by
              rw [dumpItems]
              simp
            have hlenI : (dumpItems ind x (y :: ys)).length
                = ind + (dumpVal ind x).length + 2 + (dumpItems ind y ys).length := by
              rw [hI]
              simp [pad]
              omega
            rw [parseItems_succ]
            have h1 : parseVal f (dumpItems ind x (y :: ys)
                  ++ '\n' :: (pad indc ++ ']' :: rest))
                = some (x, ',' :: '\n' ::
                    (dumpItems ind y ys ++ '\n' :: (pad indc ++ ']' :: rest))) := by
              rw [parseVal_congr_skip f _
                    (dumpVal ind x ++ ',' :: '\n' ::
                      (dumpItems ind y ys ++ '\n' :: (pad indc ++ ']' :: rest)))
                    (by rw [hI]
                        simp only [List.append_assoc, List.cons_append]
                        rw [skipJsonWs_pad]),
                  ihV x ind (',' :: '\n' ::
                    (dumpItems ind y ys ++ '\n' :: (pad indc ++ ']' :: rest)))
                    (by omega) rfl]
            rw [h1]
            have h2 : skipJsonWs (',' :: '\n' ::
                  (dumpItems ind y ys ++ '\n' :: (pad indc ++ ']' :: rest)))
                = ',' :: '\n' :: (dumpItems ind y ys ++ '\n' :: (pad indc ++ ']' :: rest)) :=
              skipJsonWs_cons_not ',' (by decide) _
            have h3 : parseItems f ('\n' ::
                  (dumpItems ind y ys ++ '\n' :: (pad indc ++ ']' :: rest)))
                = some (y :: ys, rest) := by
              rw [parseItems_congr_skip f _
                    (dumpItems ind y ys ++ '\n' :: (pad indc ++ ']' :: rest))
                    (skipJsonWs_cons_ws '\n' (by decide) _),
                  ihI y ys ind indc rest (by omega)]
            simp only [h2, h3]
      · intro k v ls ind indc rest hlen
        cases ls with
        | nil =>
            have hM : dumpMembers ind k v [] ++ '\n' :: (pad indc ++ '}' :: rest)
                = pad ind ++ ('"' :: ((k.data.map escapeChar).flatten
                    ++ '"' :: (':' :: ' ' :: (dumpVal ind v
                        ++ '\n' :: (pad indc ++ '}' :: rest))))) := by
              rw [dumpMembers, dumpString]
              simp
            have hlenM : (dumpMembers ind k v []).length
                = ind + (dumpString k).length + 2 + (dumpVal ind v).length := by
              rw [dumpMembers]
              simp [pad]
              omega
            rw [parseMembers_succ]
            have hskip : skipJsonWs (dumpMembers ind k v []
                  ++ '\n' :: (pad indc ++ '}' :: rest))
                = '"' :: ((k.data.map escapeChar).flatten
                    ++ '"' :: (':' :: ' ' :: (dumpVal ind v
                        ++ '\n' :: (pad indc ++ '}' :: rest)))) := by
              rw [hM, skipJsonWs_pad, skipJsonWs_cons_not '"' (by decide)]
            rw [hskip]
            have h2 : skipJsonWs (':' :: ' ' :: (dumpVal ind v
                  ++ '\n' :: (pad indc ++ '}' :: rest)))
                = ':' :: ' ' :: (dumpVal ind v ++ '\n' :: (pad indc ++ '}' :: rest)) :=
              skipJsonWs_cons_not ':' (by decide) _
            have h3 : parseVal f (' ' :: (dumpVal ind v
                  ++ '\n' :: (pad indc ++ '}' :: rest)))
                = some (v, '\n' :: (pad indc ++ '}' :: rest)) := by
              rw [parseVal_congr_skip f _
                    (dumpVal ind v ++ '\n' :: (pad indc ++ '}' :: rest))
                    (skipJsonWs_cons_ws ' ' (by decide) _),
                  ihV v ind ('\n' :: (pad indc ++ '}' :: rest)) (by omega) rfl]
            have h4 : skipJsonWs ('\n' :: (pad indc ++ '}' :: rest)) = '}' :: rest := by
              rw [skipJsonWs_cons_ws '\n' (by decide), skipJsonWs_pad,
                  skipJsonWs_cons_not '}' (by decide)]
            simp only [parseStringRest_dumpString, h2, h3, h4]
        | cons kv2 ls2 =>
            obtain ⟨k2, v2⟩ := kv2
            have hM : dumpMembers ind k v ((k2, v2) :: ls2)
                  ++ '\n' :: (pad indc ++ '}' :: rest)
                = pad ind ++ ('"' :: ((k.data.map escapeChar).flatten
                    ++ '"' :: (':' :: ' ' :: (dumpVal ind v
                        ++ ',' :: '\n' :: (dumpMembers ind k2 v2 ls2
                            ++ '\n' :: (pad indc ++ '}' :: rest)))))) := by
              rw [dumpMembers, dumpString]
              simp
            have hlenM : (dumpMembers ind k v ((k2, v2) :: ls2)).length
                = ind + (dumpString k).length + 2 + (dumpVal ind v).length
                  + 2 + (dumpMembers ind k2 v2 ls2).length := by
              rw [dumpMembers]
              simp [pad]
              omega
            rw [parseMembers_succ]
            have hskip : skipJsonWs (dumpMembers ind k v ((k2, v2) :: ls2)
                  ++ '\n' :: (pad indc ++ '}' :: rest))
                = '"' :: ((k.data.map escapeChar).flatten
                    ++ '"' :: (':' :: ' ' :: (dumpVal ind v
                        ++ ',' :: '\n' :: (dumpMembers ind k2 v2 ls2
                            ++ '\n' :: (pad indc ++ '}' :: rest))))) := by
              rw [hM, skipJsonWs_pad, skipJsonWs_cons_not '"' (by decide)]
            rw [hskip]
            have h2 : skipJsonWs (':' :: ' ' :: (dumpVal ind v
                  ++ ',' :: '\n' :: (dumpMembers ind k2 v2 ls2
                      ++ '\n' :: (pad indc ++ '}' :: rest))))
                = ':' :: ' ' :: (dumpVal ind v
                    ++ ',' :: '\n' :: (dumpMembers ind k2 v2 ls2
                        ++ '\n' :: (pad indc ++ '}' :: rest))) :=
              skipJsonWs_cons_not ':' (by decide) _
            have h3 : parseVal f (' ' :: (dumpVal ind v
                  ++ ',' :: '\n' :: (dumpMembers ind k2 v2 ls2
                      ++ '\n' :: (pad indc ++ '}' :: rest))))
                = some (v, ',' :: '\n' :: (dumpMembers ind k2 v2 ls2
                    ++ '\n' :: (pad indc ++ '}' :: rest))) := by
              rw [parseVal_congr_skip f _
                    (dumpVal ind v ++ ',' :: '\n' :: (dumpMembers ind k2 v2 ls2
                        ++ '\n' :: (pad indc ++ '}' :: rest)))
                    (skipJsonWs_cons_ws ' ' (by decide) _),
                  ihV v ind (',' :: '\n' :: (dumpMembers ind k2 v2 ls2
                    ++ '\n' :: (pad indc ++ '}' :: rest))) (by omega) rfl]
            have h4 : skipJsonWs (',' :: '\n' :: (dumpMembers ind k2 v2 ls2
                  ++ '\n' :: (pad indc ++ '}' :: rest)))
                = ',' :: '\n' :: (dumpMembers ind k2 v2 ls2
                    ++ '\n' :: (pad indc ++ '}' :: rest)) :=
              skipJsonWs_cons_not ',' (by decide) _
            have h5 : parseMembers f ('\n' :: (dumpMembers ind k2 v2 ls2
                  ++ '\n' :: (pad indc ++ '}' :: rest)))
                = some ((k2, v2) :: ls2, rest) := by
              rw [parseMembers_congr_skip f _
                    (dumpMembers ind k2 v2 ls2 ++ '\n' :: (pad indc ++ '}' :: rest))
                    (skipJsonWs_cons_ws '\n' (by decide) _),
                  ihM k2 v2 ls2 ind indc rest (by omega)]
            simp only [parseStringRest_dumpString, h2, h3, h4, h5]

theorem data_mk (l : List Char) : (String.mk l).data = l := rfl

theorem loads_dumps (v : Json) : loads (dumps v) = some v := by
  have h := (rt_fuel ((dumpVal 0 v).length + 1)).1 v 0 [] (by omega) rfl
  rw [List.append_nil] at h
  simp only [loads, dumps, data_mk]
  rw [h]
  rfl

/-- C8: `save_json` writes `json.dumps(data, indent=4)` at `filename`,
overwriting whatever the file system previously held at that path, and
re-reading the written text with the JSON reader reproduces the original
record list exactly — round-trip identity, for every record list including
the empty one. -/
theorem save_json_round_trip (fs : String → Option String) (records : List Json)
    (path : String) :
    save_json fs (Json.arr records) path path = some (dumps (Json.arr records))
    ∧ loads (dumps (Json.arr records)) = some (Json.arr records) := by
  refine ⟨?_, loads_dumps _⟩
  simp [save_json]

end WeatherTracker
